import Mathlib

/-!
rdma_demo.c: connection set-up and one-sided RDMA write

A shallow embedding of `src/rdma_demo.c`.

* Pointers and handles are natural numbers, `0` is `NULL`.
* Memory and text are lists of byte values (`List Nat`).
* Every call into libc / libibverbs is recorded as an `Event`; what the
  library answers is read from an environment `Env`.  `ibv_modify_qp` is the
  one call whose answer depends on earlier calls, so the environment carries
  a hardware state `σ` and a step function for it.
* `exit(1)` is the result `Res.exit 1`; a write through `NULL` by the program
  is `Res.fault`, the process being killed there.
-/

namespace RdmaDemo

/-! ## Constants -/

/-- Source: `#define PORT 1`. -/
def PORT : Nat := 1

/-- Source: `#define GID_INDEX 1`. -/
def GID_INDEX : Nat := 1

/-- Values of `enum ibv_access_flags` in `<infiniband/verbs.h>`. -/
def IBV_ACCESS_LOCAL_WRITE : Nat := 1
def IBV_ACCESS_REMOTE_WRITE : Nat := 2
def IBV_ACCESS_REMOTE_READ : Nat := 4

/-- Values of `enum ibv_qp_state` in `<infiniband/verbs.h>`. -/
def IBV_QPS_RESET : Nat := 0
def IBV_QPS_INIT : Nat := 1
def IBV_QPS_RTR : Nat := 2
def IBV_QPS_RTS : Nat := 3

/-- Value of `IBV_QPT_RC` in `enum ibv_qp_type`. -/
def IBV_QPT_RC : Nat := 2

/-- Value of `IBV_MTU_1024` in `enum ibv_mtu`. -/
def IBV_MTU_1024 : Nat := 3

/-- Values of `enum ibv_qp_attr_mask` in `<infiniband/verbs.h>`. -/
def IBV_QP_STATE : Nat := 2 ^ 0
def IBV_QP_ACCESS_FLAGS : Nat := 2 ^ 3
def IBV_QP_PKEY_INDEX : Nat := 2 ^ 4
def IBV_QP_PORT : Nat := 2 ^ 5
def IBV_QP_AV : Nat := 2 ^ 7
def IBV_QP_PATH_MTU : Nat := 2 ^ 8
def IBV_QP_TIMEOUT : Nat := 2 ^ 9
def IBV_QP_RETRY_CNT : Nat := 2 ^ 10
def IBV_QP_RNR_RETRY : Nat := 2 ^ 11
def IBV_QP_RQ_PSN : Nat := 2 ^ 12
def IBV_QP_MAX_QP_RD_ATOMIC : Nat := 2 ^ 13
def IBV_QP_MIN_RNR_TIMER : Nat := 2 ^ 15
def IBV_QP_SQ_PSN : Nat := 2 ^ 16
def IBV_QP_MAX_DEST_RD_ATOMIC : Nat := 2 ^ 17
def IBV_QP_DEST_QPN : Nat := 2 ^ 20

/-- Value of `IBV_WR_RDMA_WRITE` in `enum ibv_wr_opcode`. -/
def IBV_WR_RDMA_WRITE : Nat := 0

/-- Value of `IBV_SEND_SIGNALED` in `enum ibv_send_flags`. -/
def IBV_SEND_SIGNALED : Nat := 2

/-- Value of `IBV_WC_SUCCESS` in `enum ibv_wc_status`. -/
def IBV_WC_SUCCESS : Nat := 0

/-! ## Data -/

/-- The `global` view of `union ibv_gid`: two 64-bit halves. -/
structure ibv_gid where
  subnet_prefix : Nat
  interface_id : Nat
deriving DecidableEq, Repr

/-- Source: `struct QPInfo`. -/
structure QPInfo where
  qp_num : Nat
  lid : Nat
  gid : ibv_gid
  addr : Nat
  rkey : Nat
deriving DecidableEq, Repr

/-- Source: `struct Context`.  `mem` is the contents of the bytes `buf` points
to, `port_attr_lid` is `port_attr.lid`. -/
structure Context where
  ctx : Nat
  pd : Nat
  mr : Nat
  cq : Nat
  qp : Nat
  buf : Nat
  port_attr_lid : Nat
  mem : List Nat
deriving DecidableEq, Repr

/-- The fields of `struct ibv_qp_init_attr` the program sets (`cap` inlined);
every other field is zero. -/
structure ibv_qp_init_attr where
  send_cq : Nat
  recv_cq : Nat
  max_send_wr : Nat
  max_recv_wr : Nat
  max_send_sge : Nat
  max_recv_sge : Nat
  qp_type : Nat
deriving DecidableEq, Repr

/-- The fields of `struct ibv_ah_attr` the program touches (`grh` inlined). -/
structure ibv_ah_attr where
  dgid : ibv_gid
  sgid_index : Nat
  hop_limit : Nat
  sl : Nat
  src_path_bits : Nat
  is_global : Nat
  port_num : Nat
deriving DecidableEq, Repr

/-- The fields of `struct ibv_qp_attr` the program touches. -/
structure ibv_qp_attr where
  qp_state : Nat
  path_mtu : Nat
  rq_psn : Nat
  sq_psn : Nat
  dest_qp_num : Nat
  qp_access_flags : Nat
  ah_attr : ibv_ah_attr
  pkey_index : Nat
  max_rd_atomic : Nat
  max_dest_rd_atomic : Nat
  min_rnr_timer : Nat
  port_num : Nat
  timeout : Nat
  retry_cnt : Nat
  rnr_retry : Nat
deriving DecidableEq, Repr

/-- Source: `struct ibv_sge`. -/
structure ibv_sge where
  addr : Nat
  length : Nat
  lkey : Nat
deriving DecidableEq, Repr

/-- The fields of `struct ibv_send_wr` the program touches; `sg_list` is the
array of `num_sge` entries the pointer refers to, `remote_addr` and `rkey` are
`wr.rdma.remote_addr` and `wr.rdma.rkey`. -/
structure ibv_send_wr where
  wr_id : Nat
  next : Nat
  sg_list : List ibv_sge
  num_sge : Nat
  opcode : Nat
  send_flags : Nat
  remote_addr : Nat
  rkey : Nat
deriving DecidableEq, Repr

/-- The fields of `struct ibv_wc` the program reads. -/
structure ibv_wc where
  wr_id : Nat
  status : Nat
deriving DecidableEq, Repr

/-- One answer of `ibv_poll_cq(cq, 1, &wc)`: no entry (returns 0), one entry
(returns 1 and fills `wc`), or an error (returns a negative number). -/
inductive PollResult where
  | empty
  | one (wc : ibv_wc)
  | error (e : Nat)
deriving DecidableEq, Repr

/-- A call into libc or libibverbs, with the arguments passed. -/
inductive Event where
  | get_device_list
  | open_device (dev : Nat)
  | get_device_name (dev : Nat)
  | alloc_pd (ctx : Nat)
  | malloc (size : Nat)
  | memset (p : Nat) (byte : Nat) (size : Nat)
  | reg_mr (pd : Nat) (buf : Nat) (size : Nat) (access : Nat)
  | create_cq (ctx : Nat) (cqe : Nat)
  | create_qp (pd : Nat) (init_attr : ibv_qp_init_attr)
  | query_port (ctx : Nat) (port : Nat)
  | query_gid (ctx : Nat) (port : Nat) (index : Nat)
  | modify_qp (qp : Nat) (attr : ibv_qp_attr) (mask : Nat)
  | post_send (qp : Nat) (wr : ibv_send_wr)
  | poll_cq (cq : Nat) (num_entries : Nat)
  | strcpy (dst : Nat) (src : String)
  | sleep (seconds : Nat)
  | scanf (fmt : String)
  | printf (fmt : String) (args : List Nat)
  | perror (msg : String)
  | destroy_qp (qp : Nat)
  | destroy_cq (cq : Nat)
  | dereg_mr (mr : Nat)
  | dealloc_pd (pd : Nat)
  | free (p : Nat)
  | close_device (ctx : Nat)
  | free_device_list (list : Nat)
deriving DecidableEq, Repr

/-- The release calls of the API: `ibv_destroy_qp`, `ibv_destroy_cq`,
`ibv_dereg_mr`, `ibv_dealloc_pd`, `free`, `ibv_close_device`,
`ibv_free_device_list`. -/
def Event.isRelease : Event → Bool
  | .destroy_qp _ => true
  | .destroy_cq _ => true
  | .dereg_mr _ => true
  | .dealloc_pd _ => true
  | .free _ => true
  | .close_device _ => true
  | .free_device_list _ => true
  | _ => false

/-- What the world outside the program answers.  One-shot calls have one
answer each; `ibv_modify_qp` steps the hardware state; `polls` are the
successive answers of `ibv_poll_cq`; `landed i` is what remote writes do to
the registered buffer during the server's `i`-th `sleep(1)`; `remote_info0`
and `wc0` are the indeterminate initial contents of the locals `remote_info`
and `wc`. -/
structure Env (σ : Type) where
  dev_list : Nat
  dev0 : Nat
  ctx : Nat
  pd : Nat
  buf : Nat
  mr : Nat
  mr_lkey : Nat
  mr_rkey : Nat
  cq : Nat
  qp : Nat
  qp_num : Nat
  lid : Nat
  gid : ibv_gid
  stdin : List Nat
  remote_info0 : QPInfo
  hw : σ
  ibv_modify_qp : σ → Nat → ibv_qp_attr → Nat → σ × Int
  post_send : Int
  polls : List PollResult
  wc0 : ibv_wc
  landed : Nat → List Nat → List Nat

/-- Result of a function that may call `exit`, or be killed by the fault of a
write through `NULL`. -/
inductive Res (α : Type) where
  | ok (a : α)
  | exit (status : Nat)
  | fault
deriving DecidableEq, Repr

/-- How a run of `main` ends: `exit(status)`, `return status`, killed by the
fault of a write through `NULL`, or still inside the completion wait when the
recorded poll answers run out. -/
inductive Outcome where
  | exit (status : Nat)
  | ret (status : Nat)
  | fault
  | spinning
deriving DecidableEq, Repr

/-- The process exit status, when the process has ended by `exit` or `return`
(a process killed by a fault has none). -/
def Outcome.status : Outcome → Option Nat
  | .exit s => some s
  | .ret s => some s
  | .fault => none
  | .spinning => none

/-! ## `init_ctx` -/

/-- Source: the designated initialiser of `qp_attr` in `init_ctx`. -/
def qp_init_attr (cq : Nat) : ibv_qp_init_attr :=
  { send_cq := cq, recv_cq := cq,
    max_send_wr := 10, max_recv_wr := 10, max_send_sge := 1, max_recv_sge := 1,
    qp_type := IBV_QPT_RC }

/-- Source: `init_ctx` (lines 32-71).  Returns the calls made and either the
filled `Context` or how the process ended.  `memset(ctx->buf, 0, size)` on a
`NULL` buffer writes through `NULL` (for `size` other than 0): the process is
killed there. -/
def init_ctx {σ : Type} (e : Env σ) (size : Nat) : List Event × Res Context :=
  let t1 := [Event.get_device_list]
  if e.dev_list = 0 then (t1 ++ [Event.perror "Get Device failed"], Res.exit 1) else
  let t2 := t1 ++ [Event.open_device e.dev0]
  if e.ctx = 0 then (t2 ++ [Event.perror "Open Device failed"], Res.exit 1) else
  let t3 := t2 ++ [Event.get_device_name e.dev0,
                   Event.printf "Create Context on device: %s\n" [e.dev0]]
  let t4 := t3 ++ [Event.alloc_pd e.ctx]
  let t5 := t4 ++ [Event.malloc size, Event.memset e.buf 0 size]
  if e.buf = 0 ∧ size ≠ 0 then (t5, Res.fault) else
  let mem := List.replicate size 0
  let access := IBV_ACCESS_LOCAL_WRITE ||| IBV_ACCESS_REMOTE_WRITE ||| IBV_ACCESS_REMOTE_READ
  let t6 := t5 ++ [Event.reg_mr e.pd e.buf size access]
  if e.mr = 0 then (t6 ++ [Event.perror "Reg MR failed"], Res.exit 1) else
  let t7 := t6 ++ [Event.create_cq e.ctx 16]
  let t8 := t7 ++ [Event.create_qp e.pd (qp_init_attr e.cq)]
  if e.qp = 0 then (t8 ++ [Event.perror "Create QP failed"], Res.exit 1) else
  let t9 := t8 ++ [Event.query_port e.ctx PORT]
  (t9, Res.ok { ctx := e.ctx, pd := e.pd, mr := e.mr, cq := e.cq, qp := e.qp,
                buf := e.buf, port_attr_lid := e.lid, mem := mem })

/-! ## `modify_qp` -/

/-- Source: `memset(&attr, 0, sizeof(attr))`. -/
def attr_zero : ibv_qp_attr :=
  { qp_state := 0, path_mtu := 0, rq_psn := 0, sq_psn := 0, dest_qp_num := 0,
    qp_access_flags := 0,
    ah_attr := { dgid := { subnet_prefix := 0, interface_id := 0 }, sgid_index := 0,
                 hop_limit := 0, sl := 0, src_path_bits := 0, is_global := 0, port_num := 0 },
    pkey_index := 0, max_rd_atomic := 0, max_dest_rd_atomic := 0, min_rnr_timer := 0,
    port_num := 0, timeout := 0, retry_cnt := 0, rnr_retry := 0 }

/-- Source: `modify_qp` lines 79-83, the attributes of the request to INIT. -/
def attr_init : ibv_qp_attr :=
  { attr_zero with
    qp_state := IBV_QPS_INIT
    port_num := PORT
    pkey_index := 0
    qp_access_flags :=
      IBV_ACCESS_LOCAL_WRITE ||| IBV_ACCESS_REMOTE_READ ||| IBV_ACCESS_REMOTE_WRITE }

/-- Source: `modify_qp` line 84. -/
def flags_init : Nat :=
  IBV_QP_STATE ||| IBV_QP_PKEY_INDEX ||| IBV_QP_PORT ||| IBV_QP_ACCESS_FLAGS

/-- Source: `modify_qp` lines 89-104, the attributes of the request to RTR. -/
def attr_rtr (remote : QPInfo) : ibv_qp_attr :=
  { attr_zero with
    qp_state := IBV_QPS_RTR
    path_mtu := IBV_MTU_1024
    dest_qp_num := remote.qp_num
    rq_psn := 0
    max_dest_rd_atomic := 1
    min_rnr_timer := 12
    ah_attr :=
      { attr_zero.ah_attr with
        is_global := 1
        dgid := remote.gid
        sgid_index := GID_INDEX
        hop_limit := 1
        sl := 0
        src_path_bits := 0
        port_num := PORT } }

/-- Source: `modify_qp` lines 106-107. -/
def flags_rtr : Nat :=
  IBV_QP_STATE ||| IBV_QP_AV ||| IBV_QP_PATH_MTU ||| IBV_QP_DEST_QPN |||
  IBV_QP_RQ_PSN ||| IBV_QP_MAX_DEST_RD_ATOMIC ||| IBV_QP_MIN_RNR_TIMER

/-- Source: `modify_qp` lines 112-118, the attributes of the request to RTS. -/
def attr_rts : ibv_qp_attr :=
  { attr_zero with
    qp_state := IBV_QPS_RTS
    timeout := 14
    retry_cnt := 7
    rnr_retry := 7
    sq_psn := 0
    max_rd_atomic := 1 }

/-- Source: `modify_qp` lines 120-121. -/
def flags_rts : Nat :=
  IBV_QP_STATE ||| IBV_QP_TIMEOUT ||| IBV_QP_RETRY_CNT |||
  IBV_QP_RNR_RETRY ||| IBV_QP_SQ_PSN ||| IBV_QP_MAX_QP_RD_ATOMIC

/-- Calls made, hardware state reached and result of a function that talks to
the queue pair. -/
structure Step (σ : Type) where
  trace : List Event
  hw : σ
  result : Res Unit

/-- Source: `modify_qp` (lines 74-124).  `ibv_modify_qp` is the driver's step
function, `hw` the hardware state at entry; a non-zero return of the driver
leads to `perror` and `exit(1)`. -/
def modify_qp {σ : Type} (ibv_modify_qp : σ → Nat → ibv_qp_attr → Nat → σ × Int) (hw : σ)
    (ctx : Context) (_local : QPInfo) (remote : QPInfo) : Step σ :=
  let r1 := ibv_modify_qp hw ctx.qp attr_init flags_init
  let t1 := [Event.modify_qp ctx.qp attr_init flags_init]
  if r1.2 ≠ 0 then ⟨t1 ++ [Event.perror "Failed to modify to INIT"], r1.1, Res.exit 1⟩ else
  let r2 := ibv_modify_qp r1.1 ctx.qp (attr_rtr remote) flags_rtr
  let t2 := t1 ++ [Event.modify_qp ctx.qp (attr_rtr remote) flags_rtr]
  if r2.2 ≠ 0 then ⟨t2 ++ [Event.perror "Failed to modify to RTR"], r2.1, Res.exit 1⟩ else
  let r3 := ibv_modify_qp r2.1 ctx.qp attr_rts flags_rts
  let t3 := t2 ++ [Event.modify_qp ctx.qp attr_rts flags_rts]
  if r3.2 ≠ 0 then ⟨t3 ++ [Event.perror "Failed to modify to RTS"], r3.1, Res.exit 1⟩ else
  ⟨t3, r3.1, Res.ok ()⟩

/-! ## Text: `printf` and `scanf` -/

/-- The bytes of a string literal (without the terminating NUL). -/
def bytes (s : String) : List Nat := s.toList.map Char.toNat

/-- Source: libc `isdigit` on a byte. -/
def isdigit (c : Nat) : Bool := decide (48 ≤ c) && decide (c ≤ 57)

/-- Source: libc `isspace` on a byte (blank, and `\t \n \v \f \r`). -/
def isspace (c : Nat) : Bool := decide (c = 32) || (decide (9 ≤ c) && decide (c ≤ 13))

/-- Decimal digits of `n`, most significant first, `fuel` bounding their number. -/
def dec_digits : Nat → Nat → List Nat
  | 0, _ => []
  | fuel + 1, n => if n < 10 then [48 + n] else dec_digits fuel (n / 10) ++ [48 + n % 10]

/-- What `printf` writes for `%u`, `%lu` and `%llu`: the decimal digits of the
value. -/
def fmt_u (n : Nat) : List Nat := dec_digits (n + 1) n

/-- Source: `main` line 151, the closing line of the printed block: 56 times
`=` and a newline. -/
def ruler : String := String.mk (List.replicate 56 '=') ++ "\n"

/-- Source: `main` lines 145-151, the text written to stdout for the local
descriptor. -/
def print_local_info (d : QPInfo) : List Nat :=
  bytes "\n========= LOCAL INFO (Copy this to other side) =========\n" ++
  (bytes "QPN: " ++ fmt_u d.qp_num ++ bytes "\n") ++
  (bytes "GID_Subnet: " ++ fmt_u d.gid.subnet_prefix ++ bytes "\n") ++
  (bytes "GID_Interface: " ++ fmt_u d.gid.interface_id ++ bytes "\n") ++
  (bytes "ADDR: " ++ fmt_u d.addr ++ bytes "\n") ++
  (bytes "RKEY: " ++ fmt_u d.rkey ++ bytes "\n") ++
  bytes ruler

/-- The maximal runs of decimal digits of a text, in order; `cur` is the run
being read. -/
def digit_runs : List Nat → List Nat → List (List Nat)
  | [], cur => if cur = [] then [] else [cur]
  | c :: cs, cur =>
    if isdigit c then digit_runs cs (cur ++ [c])
    else if cur = [] then digit_runs cs [] else cur :: digit_runs cs []

/-- The operator between the two consoles: the prompt asks for the numbers in
the order `QPN GID_Subnet GID_Interface ADDR RKEY`, which is the order they are
printed in, so the reply typed is the numbers of the printed text, each
followed by a blank, and a newline. -/
def typed_reply (printed : List Nat) : List Nat :=
  ((digit_runs printed []).map (fun run => run ++ [32])).flatten ++ [10]

/-- Reads a maximal run of digits, accumulating its value. -/
def scan_digits : List Nat → Nat → Nat × List Nat
  | [], acc => (acc, [])
  | c :: cs, acc => if isdigit c then scan_digits cs (acc * 10 + (c - 48)) else (acc, c :: cs)

/-- The 64-bit conversion `scanf` makes of a digit run of value `v` (libc
`strtoul` / `strtoull`): a value that does not fit in 64 bits saturates at
`2 ^ 64 - 1`, otherwise a leading minus sign negates it modulo `2 ^ 64`. -/
def strtoul (neg : Bool) (v : Nat) : Nat :=
  if 2 ^ 64 ≤ v then 2 ^ 64 - 1
  else if neg then (2 ^ 64 - v) % 2 ^ 64
  else v

/-- One `%u` / `%lu` / `%llu` conversion into an unsigned object of `w` bits:
white space is skipped, an optional sign and a non-empty digit run are read.
`none` is a matching failure or end of input.  The run is converted to 64 bits
by `strtoul` and the result is stored in the object, truncated to its `w`
bits. -/
def scan_unsigned (w : Nat) (inp : List Nat) : Option (Nat × List Nat) :=
  match inp.dropWhile isspace with
  | [] => none
  | c :: cs =>
    if isdigit c then
      let r := scan_digits (c :: cs) 0
      some (strtoul false r.1 % 2 ^ w, r.2)
    else if c = 43 ∨ c = 45 then
      match cs with
      | [] => none
      | c2 :: cs2 =>
        if isdigit c2 then
          let r := scan_digits (c2 :: cs2) 0
          some (strtoul (decide (c = 45)) r.1 % 2 ^ w, r.2)
        else none
    else none

/-- Source: `main` lines 155-160, `scanf("%u %llu %llu %lu %u", ...)` into
`remote_info`.  Returns the number of fields assigned and the struct, every
field not assigned keeping what it held. -/
def scanf_remote (inp : List Nat) (r : QPInfo) : Nat × QPInfo :=
  match scan_unsigned 32 inp with
  | none => (0, r)
  | some (v1, i1) =>
    let r1 := { r with qp_num := v1 }
    match scan_unsigned 64 i1 with
    | none => (1, r1)
    | some (v2, i2) =>
      let r2 := { r1 with gid := { r1.gid with subnet_prefix := v2 } }
      match scan_unsigned 64 i2 with
      | none => (2, r2)
      | some (v3, i3) =>
        let r3 := { r2 with gid := { r2.gid with interface_id := v3 } }
        match scan_unsigned 64 i3 with
        | none => (3, r3)
        | some (v4, i4) =>
          let r4 := { r3 with addr := v4 }
          match scan_unsigned 32 i4 with
          | none => (4, r4)
          | some (v5, _) => (5, { r4 with rkey := v5 })

/-- The value ranges of the fields of `struct QPInfo`. -/
def QPInfo.wf (d : QPInfo) : Prop :=
  d.qp_num < 2 ^ 32 ∧ d.lid < 2 ^ 16 ∧ d.gid.subnet_prefix < 2 ^ 64 ∧
  d.gid.interface_id < 2 ^ 64 ∧ d.addr < 2 ^ 64 ∧ d.rkey < 2 ^ 32

/-! ## C strings in a buffer -/

/-- Source: libc `strcpy(dst, src)` for a literal `src`, on the contents of
`dst`: the bytes of `src` and a NUL replace the first bytes. -/
def strcpy (dst : List Nat) (src : String) : List Nat :=
  (bytes src ++ [0]) ++ dst.drop ((bytes src).length + 1)

/-- Source: libc `strlen`: the number of bytes before the first NUL. -/
def strlen (mem : List Nat) : Nat := (mem.takeWhile (fun b => b ≠ 0)).length

/-- Source: libc `strncmp(a, b, n)`; a position past the end of a list reads as
NUL (the terminator of a literal). -/
def strncmp : List Nat → List Nat → Nat → Int
  | _, _, 0 => 0
  | a, b, n + 1 =>
    if a.headD 0 ≠ b.headD 0 then (a.headD 0 : Int) - (b.headD 0 : Int)
    else if a.headD 0 = 0 then 0
    else strncmp a.tail b.tail n

/-! ## The client: one remote write -/

/-- Source: `main` line 185, the client's buffer after `strcpy`. -/
def client_mem (c : Context) : List Nat := strcpy c.mem "Client: Hello RDMA World!"

/-- Source: `main` lines 187-190. -/
def client_sge {σ : Type} (e : Env σ) (c : Context) : ibv_sge :=
  { addr := c.buf, length := strlen (client_mem c) + 1, lkey := e.mr_lkey }

/-- Source: `memset(&wr, 0, sizeof(wr))`. -/
def wr_zero : ibv_send_wr :=
  { wr_id := 0, next := 0, sg_list := [], num_sge := 0, opcode := 0, send_flags := 0,
    remote_addr := 0, rkey := 0 }

/-- Source: `main` lines 192-202. -/
def client_wr {σ : Type} (e : Env σ) (c : Context) (remote_info : QPInfo) : ibv_send_wr :=
  { wr_zero with
    wr_id := 1
    opcode := IBV_WR_RDMA_WRITE
    sg_list := [client_sge e c]
    num_sge := 1
    send_flags := IBV_SEND_SIGNALED
    remote_addr := remote_info.addr
    rkey := remote_info.rkey }

/-- Return value of `ibv_poll_cq` for an answer. -/
def poll_ret : PollResult → Int
  | .empty => 0
  | .one _ => 1
  | .error e => Int.negSucc e

/-- Contents of `wc` after `ibv_poll_cq` gave an answer: written only when an
entry was retrieved. -/
def poll_wc : PollResult → ibv_wc → ibv_wc
  | .one w, _ => w
  | _, wc => wc

/-- Source: `main` line 211, `while (ibv_poll_cq(ctx.cq, 1, &wc) == 0) {}`.
Returns the number of calls made and, when the loop was left, the return value
of the last call with the contents of `wc`; `none` when every recorded answer
was consumed without leaving the loop. -/
def wait_completion : List PollResult → ibv_wc → Nat × Option (Int × ibv_wc)
  | [], _ => (0, none)
  | p :: ps, wc =>
    if poll_ret p = 0 then
      ((wait_completion ps (poll_wc p wc)).1 + 1, (wait_completion ps (poll_wc p wc)).2)
    else (1, some (poll_ret p, poll_wc p wc))

/-- Source: `main` lines 185-216, the client branch. -/
def client {σ : Type} (e : Env σ) (c : Context) (remote_info : QPInfo) : List Event × Outcome :=
  let t1 := [Event.strcpy c.buf "Client: Hello RDMA World!",
             Event.printf "Client: Writing '%s' to remote memory...\n" [c.buf],
             Event.post_send c.qp (client_wr e c remote_info)]
  let t2 := if e.post_send ≠ 0 then t1 ++ [Event.perror "Post Send failed"] else t1
  let w := wait_completion e.polls e.wc0
  let t3 := t2 ++ List.replicate w.1 (Event.poll_cq c.cq 1)
  match w.2 with
  | none => (t3, Outcome.spinning)
  | some (_, wc) =>
    if wc.status = IBV_WC_SUCCESS then
      (t3 ++ [Event.printf "Client: Write Success!\n" []], Outcome.ret 0)
    else
      (t3 ++ [Event.printf "Client: Failed status %d\n" [wc.status]], Outcome.ret 0)

/-! ## The server: watch the buffer -/

/-- Source: `main` line 169, the server's buffer after `strcpy`. -/
def server_mem (c : Context) : List Nat := strcpy c.mem "Server: I am waiting for data..."

/-- Source: `main` line 178, the server's test on its buffer. -/
def server_check (mem : List Nat) : Bool := decide (strncmp mem (bytes "Client") 6 = 0)

/-- Source: `main` lines 175-182, `for (int i = 0; i < 10; i++)`; `k` is the
number of iterations left, `i` the loop counter, `mem` the buffer contents. -/
def server_loop (landed : Nat → List Nat → List Nat) (buf : Nat) :
    Nat → Nat → List Nat → List Event × List Nat
  | 0, _, mem => ([], mem)
  | k + 1, i, mem =>
    let t := [Event.sleep 1, Event.printf "Server memory [%d]: %s\n" [i, buf]]
    if server_check (landed i mem) then
      (t ++ [Event.printf "\n🎉 SUCCESS! Data changed detected!\n" []], landed i mem)
    else
      (t ++ (server_loop landed buf k (i + 1) (landed i mem)).1,
       (server_loop landed buf k (i + 1) (landed i mem)).2)

/-- Source: `main` lines 166-182, the server branch. -/
def server {σ : Type} (e : Env σ) (c : Context) : List Event × Outcome :=
  let t1 := [Event.strcpy c.buf "Server: I am waiting for data...",
             Event.printf "Server: Memory content BEFORE: '%s'\n" [c.buf],
             Event.printf "Server: Waiting 10 seconds for Client to write...\n" []]
  (t1 ++ (server_loop e.landed c.buf 10 0 (server_mem c)).1, Outcome.ret 0)

/-! ## `main` -/

/-- Source: `main` lines 137-142, the local descriptor. -/
def local_info_of {σ : Type} (e : Env σ) (c : Context) : QPInfo :=
  { qp_num := e.qp_num, lid := c.port_attr_lid, gid := e.gid, addr := c.buf, rkey := e.mr_rkey }

/-- Source: the calls of `main` lines 142-160 (query of the GID, the printed
block, the prompt, the read). -/
def exchange_events (c : Context) (d : QPInfo) : List Event :=
  [Event.query_gid c.ctx PORT GID_INDEX,
   Event.printf "\n========= LOCAL INFO (Copy this to other side) =========\n" [],
   Event.printf "QPN: %u\n" [d.qp_num],
   Event.printf "GID_Subnet: %llu\n" [ d.gid.subnet_prefix],
   Event.printf "GID_Interface: %llu\n" [d.gid.interface_id],
   Event.printf "ADDR: %lu\n" [d.addr],
   Event.printf "RKEY: %u\n" [d.rkey],
   Event.printf ruler [],
   Event.printf "\n>>> Enter REMOTE info (Order: QPN GID_Subnet GID_Interface ADDR RKEY):\n" [],
   Event.scanf "%u %llu %llu %lu %u"]

/-- A run of the program: the calls made, the hardware state reached, how the
run ended, and the contents of the registered buffer at that point (empty when
no buffer was set up). -/
structure Run (σ : Type) where
  trace : List Event
  hw : σ
  outcome : Outcome
  mem : List Nat

/-- Source: `main` (lines 126-220).  `argv` is the argument vector, its length
is `argc`. -/
def main {σ : Type} (e : Env σ) (argv : List String) : Run σ :=
  if argv.length ≠ 2 then
    ⟨[Event.printf "Usage: %s <server|client>\n" []], e.hw, Outcome.ret 1, []⟩
  else
    let is_server := decide (argv.getD 1 "" = "server")
    match init_ctx e 1024 with
    | (t0, Res.exit s) => ⟨t0, e.hw, Outcome.exit s, []⟩
    | (t0, Res.fault) => ⟨t0, e.hw, Outcome.fault, []⟩
    | (t0, Res.ok c) =>
      let local_info := local_info_of e c
      let remote_info := (scanf_remote e.stdin e.remote_info0).2
      let t1 := t0 ++ exchange_events c local_info
      let m := modify_qp e.ibv_modify_qp e.hw c local_info remote_info
      match m.result with
      | Res.exit s => ⟨t1 ++ m.trace, m.hw, Outcome.exit s, c.mem⟩
      | Res.fault => ⟨t1 ++ m.trace, m.hw, Outcome.fault, c.mem⟩
      | Res.ok _ =>
        let t2 := t1 ++ m.trace ++ [Event.printf "QP is in RTS state! Ready to transfer.\n" []]
        if is_server then
          ⟨t2 ++ (server e c).1, m.hw, (server e c).2,
           (server_loop e.landed c.buf 10 0 (server_mem c)).2⟩
        else
          ⟨t2 ++ (client e c remote_info).1, m.hw, (client e c remote_info).2, client_mem c⟩

/-! ## Observations on a run -/

/-- The target states of the `ibv_modify_qp` calls of a trace, in order. -/
def requested_states : List Event → List Nat
  | [] => []
  | Event.modify_qp _ attr _ :: t => attr.qp_state :: requested_states t
  | _ :: t => requested_states t

/-- The `ibv_modify_qp` calls of a trace that ask for state `s`, in order, each
as its attributes and its mask. -/
def requests_to (s : Nat) : List Event → List (ibv_qp_attr × Nat)
  | [] => []
  | Event.modify_qp _ attr mask :: t =>
    if attr.qp_state = s then (attr, mask) :: requests_to s t else requests_to s t
  | _ :: t => requests_to s t

/-- The destination queue-pair number a request applies: `attr.dest_qp_num`
when the mask has `IBV_QP_DEST_QPN`, none otherwise. -/
def applied_dest_qp_num (r : ibv_qp_attr × Nat) : Option Nat :=
  if r.2 &&& IBV_QP_DEST_QPN ≠ 0 then some r.1.dest_qp_num else none

/-- The destination GID a request applies: `attr.ah_attr.grh.dgid` when the
mask has `IBV_QP_AV` and the address vector is global, none otherwise. -/
def applied_dgid (r : ibv_qp_attr × Nat) : Option ibv_gid :=
  if r.2 &&& IBV_QP_AV ≠ 0 ∧ r.1.ah_attr.is_global ≠ 0 then some r.1.ah_attr.dgid else none

/-- The path MTU a request applies: `attr.path_mtu` when the mask has
`IBV_QP_PATH_MTU`, none otherwise. -/
def applied_path_mtu (r : ibv_qp_attr × Nat) : Option Nat :=
  if r.2 &&& IBV_QP_PATH_MTU ≠ 0 then some r.1.path_mtu else none

/-- The initial receive sequence number a request applies: `attr.rq_psn` when
the mask has `IBV_QP_RQ_PSN`, none otherwise. -/
def applied_rq_psn (r : ibv_qp_attr × Nat) : Option Nat :=
  if r.2 &&& IBV_QP_RQ_PSN ≠ 0 then some r.1.rq_psn else none

/-- The initial send sequence number a request applies: `attr.sq_psn` when the
mask has `IBV_QP_SQ_PSN`, none otherwise. -/
def applied_sq_psn (r : ibv_qp_attr × Nat) : Option Nat :=
  if r.2 &&& IBV_QP_SQ_PSN ≠ 0 then some r.1.sq_psn else none

/-- The work requests handed to `ibv_post_send` in a trace, in order. -/
def posted : List Event → List ibv_send_wr
  | [] => []
  | Event.post_send _ wr :: t => wr :: posted t
  | _ :: t => posted t

/-- The number of `sleep` calls of a trace. -/
def sleeps : List Event → Nat
  | [] => 0
  | Event.sleep _ :: t => sleeps t + 1
  | _ :: t => sleeps t

/-- The number of `ibv_poll_cq` calls of a trace. -/
def polls_made : List Event → Nat
  | [] => 0
  | Event.poll_cq _ _ :: t => polls_made t + 1
  | _ :: t => polls_made t

/-- The release calls of a trace, in order. -/
def released (t : List Event) : List Event := t.filter Event.isRelease

/-- The bytes a scatter-gather entry describes in the buffer that starts at
address `base` and holds `mem`. -/
def sge_bytes (base : Nat) (mem : List Nat) (sge : ibv_sge) : List Nat :=
  (mem.drop (sge.addr - base)).take sge.length

/-- The driver's answer (new hardware state, return value) to the request for
INIT that a run with context `c` makes. -/
def answer_init {σ : Type} (e : Env σ) (c : Context) : σ × Int :=
  e.ibv_modify_qp e.hw c.qp attr_init flags_init

/-- The driver's answer to the request for RTR that follows an accepted
request for INIT. -/
def answer_rtr {σ : Type} (e : Env σ) (c : Context) : σ × Int :=
  e.ibv_modify_qp (answer_init e c).1 c.qp
    (attr_rtr (scanf_remote e.stdin e.remote_info0).2) flags_rtr

/-- The driver's answer to the request for RTS that follows an accepted
request for RTR. -/
def answer_rts {σ : Type} (e : Env σ) (c : Context) : σ × Int :=
  e.ibv_modify_qp (answer_rtr e c).1 c.qp attr_rts flags_rts

/-! ## The environment of the claims -/

/-- The transitions the queue pair of the state machine accepts:
`RESET → INIT`, `INIT → RTR`, `RTR → RTS`. -/
def legal (s t : Nat) : Bool :=
  (decide (s = IBV_QPS_RESET) && decide (t = IBV_QPS_INIT)) ||
  (decide (s = IBV_QPS_INIT) && decide (t = IBV_QPS_RTR)) ||
  (decide (s = IBV_QPS_RTR) && decide (t = IBV_QPS_RTS))

/-- A queue pair: its state and the log of the transitions attempted on it,
each as (state at the request, state requested). -/
structure QpModel where
  state : Nat
  log : List (Nat × Nat)
deriving DecidableEq, Repr

/-- A freshly created queue pair: in RESET, nothing attempted. -/
def QpModel.fresh : QpModel := { state := IBV_QPS_RESET, log := [] }

/-- The queue pair as a driver for `ibv_modify_qp`: the state requested is
`attr.qp_state` when the mask has `IBV_QP_STATE`, the current state otherwise;
the request is accepted (return 0, state changed) only when the transition is
legal, and then only if the hardware is willing (`willing k` for the `k`-th
request); otherwise it is rejected (return -1, state kept). -/
def qp_model_step (willing : Nat → Bool) (h : QpModel) (_qp : Nat) (attr : ibv_qp_attr)
    (mask : Nat) : QpModel × Int :=
  let target := if mask &&& IBV_QP_STATE ≠ 0 then attr.qp_state else h.state
  if legal h.state target && willing h.log.length then
    ({ state := target, log := h.log ++ [(h.state, target)] }, 0)
  else
    ({ state := h.state, log := h.log ++ [(h.state, target)] }, -1)

/-- A successful one-sided write of `payload` to offset `off` of a remote
buffer holding `mem`: the bytes are copied there, the rest is untouched. -/
def rdma_write (payload : List Nat) (off : Nat) (mem : List Nat) : List Nat :=
  mem.take off ++ payload ++ mem.drop (off + payload.length)

/-- What the fabric does to the buffer of the target, which starts at address
`target_base` and holds `mem`, when it carries out the write request `wr`
posted by an endpoint whose buffer starts at `base` and holds `src`: the
bytes the scatter-gather entries describe are written at `wr.remote_addr`. -/
def deliver (base : Nat) (src : List Nat) (wr : ibv_send_wr) (target_base : Nat)
    (mem : List Nat) : List Nat :=
  rdma_write ((wr.sg_list.map (sge_bytes base src)).flatten) (wr.remote_addr - target_base) mem

/-- The releases an orderly teardown makes at the end of a run with
environment `e`: each resource the run has acquired (its acquiring call is in
the trace and answered non-NULL; `size` is the buffer size), in the order queue pair, completion queue,
memory region, protection domain, buffer, device context. -/
def releases_due {σ : Type} (e : Env σ) (size : Nat) (t : List Event) : List Event :=
  (if Event.create_qp e.pd (qp_init_attr e.cq) ∈ t ∧ e.qp ≠ 0 then [Event.destroy_qp e.qp] else []) ++
  (if Event.create_cq e.ctx 16 ∈ t ∧ e.cq ≠ 0 then [Event.destroy_cq e.cq] else []) ++
  (if Event.reg_mr e.pd e.buf size
        (IBV_ACCESS_LOCAL_WRITE ||| IBV_ACCESS_REMOTE_WRITE ||| IBV_ACCESS_REMOTE_READ) ∈ t ∧ e.mr ≠ 0
     then [Event.dereg_mr e.mr] else []) ++
  (if Event.alloc_pd e.ctx ∈ t ∧ e.pd ≠ 0 then [Event.dealloc_pd e.pd] else []) ++
  (if Event.malloc size ∈ t ∧ e.buf ≠ 0 then [Event.free e.buf] else []) ++
  (if Event.open_device e.dev0 ∈ t ∧ e.ctx ≠ 0 then [Event.close_device e.ctx] else [])

/-- An environment in which every call succeeds: the queue pair is the model
above and always willing, stdin holds five numbers, the second poll yields a
successful completion, and a remote write of the client's greeting lands
during the server's third sleep. -/
def env_ok : Env QpModel :=
  { dev_list := 4096, dev0 := 4200, ctx := 8192, pd := 8300, buf := 12288,
    mr := 8400, mr_lkey := 77, mr_rkey := 78, cq := 8500, qp := 8600, qp_num := 17,
    lid := 0, gid := { subnet_prefix := 0, interface_id := 281473913979137 },
    stdin := bytes "18 0 281473913979138 16384 99\n",
    remote_info0 := { qp_num := 0, lid := 0, gid := { subnet_prefix := 0, interface_id := 0 },
                      addr := 0, rkey := 0 },
    hw := QpModel.fresh,
    ibv_modify_qp := qp_model_step (fun _ => true),
    post_send := 0,
    polls := [PollResult.empty, PollResult.one { wr_id := 1, status := 0 }],
    wc0 := { wr_id := 0, status := 0 },
    landed := fun i mem =>
      if i = 2 then rdma_write (bytes "Client: Hello RDMA World!" ++ [0]) 0 mem else mem }

/-- The `Context` that `init_ctx` fills on `env_ok`. -/
def ctx_ok : Context :=
  { ctx := 8192, pd := 8300, mr := 8400, cq := 8500, qp := 8600, buf := 12288,
    port_attr_lid := 0, mem := List.replicate 1024 0 }

/-- As `env_ok`, with a queue pair that rejects the second request. -/
def env_rtr_rejected : Env QpModel :=
  { env_ok with ibv_modify_qp := qp_model_step (fun k => decide (k ≠ 1)) }

/-- As `env_ok`, but `ibv_alloc_pd` answers NULL, and so does `ibv_reg_mr`. -/
def env_pd_null : Env QpModel := { env_ok with pd := 0, mr := 0 }

/-- As `env_ok`, but `malloc` answers NULL. -/
def env_malloc_null : Env QpModel := { env_ok with buf := 0 }

/-- As `env_ok`, but `ibv_create_cq` answers NULL, and so does `ibv_create_qp`. -/
def env_cq_null : Env QpModel := { env_ok with cq := 0, qp := 0 }

/-- As `env_ok`, but `ibv_reg_mr` answers NULL. -/
def env_mr_null : Env QpModel := { env_ok with mr := 0 }

/-- As `env_ok`, but the first non-empty answer of `ibv_poll_cq` is an error
return, and `wc` happens to start with a zero status. -/
def env_poll_error : Env QpModel :=
  { env_ok with polls := [PollResult.empty, PollResult.error 0],
                wc0 := { wr_id := 0, status := 0 } }

/-- As `env_ok`, but `ibv_post_send` answers 12 (`ENOMEM`) and the completion
queue then stays empty. -/
def env_post_rejected : Env QpModel :=
  { env_ok with post_send := 12,
                polls := [PollResult.empty, PollResult.empty, PollResult.empty] }

/-- As `env_post_rejected`, but the third poll answers with an error. -/
def env_post_rejected_poll_error : Env QpModel :=
  { env_ok with post_send := 12,
                polls := [PollResult.empty, PollResult.empty, PollResult.error 0] }

/-- A local descriptor on an InfiniBand port: the link identifier is 1. -/
def info_a : QPInfo :=
  { qp_num := 17, lid := 1, gid := { subnet_prefix := 0, interface_id := 281473913979137 },
    addr := 94380152369152, rkey := 4660 }

/-- Contents of the local `remote_info` before the read. -/
def info_stale : QPInfo :=
  { qp_num := 0, lid := 0, gid := { subnet_prefix := 0, interface_id := 0 }, addr := 0, rkey := 0 }

/-- The `Context` that `init_ctx` fills on `env_server`. -/
def ctx_server : Context :=
  { ctx := 8192, pd := 8300, mr := 8400, cq := 8500, qp := 8600, buf := 16384,
    port_attr_lid := 0, mem := List.replicate 1024 0 }

/-- The client of the two-endpoint scenario: as `env_ok`, its operator typing
the numbers the server printed (queue pair 18, buffer at 16384, key 99). -/
def env_client : Env QpModel :=
  { env_ok with
    stdin := typed_reply (print_local_info
      { qp_num := 18, lid := 0, gid := { subnet_prefix := 0, interface_id := 281473913979138 },
        addr := 16384, rkey := 99 }) }

/-- The server of the two-endpoint scenario: queue pair 18, buffer at 16384,
key 99; its operator types the numbers the client printed; the fabric carries
out what the client's run posts during the server's third sleep. -/
def env_server : Env QpModel :=
  { env_ok with
    buf := 16384, qp_num := 18, mr_rkey := 99,
    gid := { subnet_prefix := 0, interface_id := 281473913979138 },
    stdin := typed_reply (print_local_info (local_info_of env_ok ctx_ok)),
    landed := fun i mem =>
      if i = 2 then
        (posted (main env_client ["rdma_demo", "client"]).trace).foldl
          (fun m wr => deliver env_client.buf (main env_client ["rdma_demo", "client"]).mem wr
            16384 m) mem
      else mem }

/-! ## Lemmas -/

/-! ## Lemmas on traces -/

theorem requested_states_append (a b : List Event) :
    requested_states (a ++ b) = requested_states a ++ requested_states b := by
  induction a with
  | nil => rfl
  | cons x t ih => cases x <;> simp [requested_states, ih]

theorem posted_append (a b : List Event) : posted (a ++ b) = posted a ++ posted b := by
  induction a with
  | nil => rfl
  | cons x t ih => cases x <;> simp [posted, ih]

theorem requests_to_append (s : Nat) (a b : List Event) :
    requests_to s (a ++ b) = requests_to s a ++ requests_to s b := by
  induction a with
  | nil => rfl
  | cons x t ih =>
    cases x <;> simp [requests_to, ih]
    split_ifs <;> simp

theorem init_ctx_requested {σ : Type} (e : Env σ) (n : Nat) :
    requested_states (init_ctx e n).1 = [] := by
  simp only [init_ctx]
  split_ifs <;> simp [requested_states]

theorem init_ctx_posted {σ : Type} (e : Env σ) (n : Nat) : posted (init_ctx e n).1 = [] := by
  simp only [init_ctx]
  split_ifs <;> simp [posted]

theorem exchange_requested (c : Context) (d : QPInfo) :
    requested_states (exchange_events c d) = [] := by
  simp [exchange_events, requested_states]

theorem exchange_posted (c : Context) (d : QPInfo) : posted (exchange_events c d) = [] := by
  simp [exchange_events, posted]

theorem flags_init_state : flags_init &&& IBV_QP_STATE = 1 := by decide

theorem flags_rtr_state : flags_rtr &&& IBV_QP_STATE = 1 := by decide

theorem flags_rts_state : flags_rts &&& IBV_QP_STATE = 1 := by decide

/-- The run of `main` once the arguments are two and `init_ctx` has returned. -/
theorem main_after_init {σ : Type} (e : Env σ) (argv : List String) (t0 : List Event)
    (c : Context) (hargs : argv.length = 2) (hinit : init_ctx e 1024 = (t0, Res.ok c)) :
    main e argv =
      match (modify_qp e.ibv_modify_qp e.hw c (local_info_of e c)
              (scanf_remote e.stdin e.remote_info0).2).result with
      | Res.exit s =>
        ⟨t0 ++ exchange_events c (local_info_of e c) ++
          (modify_qp e.ibv_modify_qp e.hw c (local_info_of e c)
            (scanf_remote e.stdin e.remote_info0).2).trace,
         (modify_qp e.ibv_modify_qp e.hw c (local_info_of e c)
            (scanf_remote e.stdin e.remote_info0).2).hw, Outcome.exit s, c.mem⟩
      | Res.fault =>
        ⟨t0 ++ exchange_events c (local_info_of e c) ++
          (modify_qp e.ibv_modify_qp e.hw c (local_info_of e c)
            (scanf_remote e.stdin e.remote_info0).2).trace,
         (modify_qp e.ibv_modify_qp e.hw c (local_info_of e c)
            (scanf_remote e.stdin e.remote_info0).2).hw, Outcome.fault, c.mem⟩
      | Res.ok _ =>
        if decide (argv.getD 1 "" = "server") = true then
          ⟨t0 ++ exchange_events c (local_info_of e c) ++
            (modify_qp e.ibv_modify_qp e.hw c (local_info_of e c)
              (scanf_remote e.stdin e.remote_info0).2).trace ++
            [Event.printf "QP is in RTS state! Ready to transfer.\n" []] ++ (server e c).1,
           (modify_qp e.ibv_modify_qp e.hw c (local_info_of e c)
              (scanf_remote e.stdin e.remote_info0).2).hw, (server e c).2,
           (server_loop e.landed c.buf 10 0 (server_mem c)).2⟩
        else
          ⟨t0 ++ exchange_events c (local_info_of e c) ++
            (modify_qp e.ibv_modify_qp e.hw c (local_info_of e c)
              (scanf_remote e.stdin e.remote_info0).2).trace ++
            [Event.printf "QP is in RTS state! Ready to transfer.\n" []] ++
            (client e c (scanf_remote e.stdin e.remote_info0).2).1,
           (modify_qp e.ibv_modify_qp e.hw c (local_info_of e c)
              (scanf_remote e.stdin e.remote_info0).2).hw,
           (client e c (scanf_remote e.stdin e.remote_info0).2).2, client_mem c⟩ := by
  simp only [main, hargs, hinit]
  simp

/-! ## `modify_qp`, case by case -/

theorem modify_qp_reject_init {σ : Type} (f : σ → Nat → ibv_qp_attr → Nat → σ × Int) (hw : σ)
    (c : Context) (l r : QPInfo) (h1 : (f hw c.qp attr_init flags_init).2 ≠ 0) :
    modify_qp f hw c l r =
      ⟨[Event.modify_qp c.qp attr_init flags_init, Event.perror "Failed to modify to INIT"],
       (f hw c.qp attr_init flags_init).1, Res.exit 1⟩ := by
  simp [modify_qp, h1]

theorem modify_qp_reject_rtr {σ : Type} (f : σ → Nat → ibv_qp_attr → Nat → σ × Int) (hw : σ)
    (c : Context) (l r : QPInfo) (h1 : (f hw c.qp attr_init flags_init).2 = 0)
    (h2 : (f (f hw c.qp attr_init flags_init).1 c.qp (attr_rtr r) flags_rtr).2 ≠ 0) :
    modify_qp f hw c l r =
      ⟨[Event.modify_qp c.qp attr_init flags_init, Event.modify_qp c.qp (attr_rtr r) flags_rtr,
        Event.perror "Failed to modify to RTR"],
       (f (f hw c.qp attr_init flags_init).1 c.qp (attr_rtr r) flags_rtr).1, Res.exit 1⟩ := by
  simp [modify_qp, h1, h2]

theorem modify_qp_reject_rts {σ : Type} (f : σ → Nat → ibv_qp_attr → Nat → σ × Int) (hw : σ)
    (c : Context) (l r : QPInfo) (h1 : (f hw c.qp attr_init flags_init).2 = 0)
    (h2 : (f (f hw c.qp attr_init flags_init).1 c.qp (attr_rtr r) flags_rtr).2 = 0)
    (h3 : (f (f (f hw c.qp attr_init flags_init).1 c.qp (attr_rtr r) flags_rtr).1 c.qp
            attr_rts flags_rts).2 ≠ 0) :
    modify_qp f hw c l r =
      ⟨[Event.modify_qp c.qp attr_init flags_init, Event.modify_qp c.qp (attr_rtr r) flags_rtr,
        Event.modify_qp c.qp attr_rts flags_rts, Event.perror "Failed to modify to RTS"],
       (f (f (f hw c.qp attr_init flags_init).1 c.qp (attr_rtr r) flags_rtr).1 c.qp
            attr_rts flags_rts).1, Res.exit 1⟩ := by
  simp [modify_qp, h1, h2, h3]

theorem modify_qp_accept {σ : Type} (f : σ → Nat → ibv_qp_attr → Nat → σ × Int) (hw : σ)
    (c : Context) (l r : QPInfo) (h1 : (f hw c.qp attr_init flags_init).2 = 0)
    (h2 : (f (f hw c.qp attr_init flags_init).1 c.qp (attr_rtr r) flags_rtr).2 = 0)
    (h3 : (f (f (f hw c.qp attr_init flags_init).1 c.qp (attr_rtr r) flags_rtr).1 c.qp
            attr_rts flags_rts).2 = 0) :
    modify_qp f hw c l r =
      ⟨[Event.modify_qp c.qp attr_init flags_init, Event.modify_qp c.qp (attr_rtr r) flags_rtr,
        Event.modify_qp c.qp attr_rts flags_rts],
       (f (f (f hw c.qp attr_init flags_init).1 c.qp (attr_rtr r) flags_rtr).1 c.qp
            attr_rts flags_rts).1, Res.ok ()⟩ := by
  simp [modify_qp, h1, h2, h3]

/-- The result of `modify_qp` is `ok` exactly when the three answers were 0. -/
theorem modify_qp_ok_iff {σ : Type} (f : σ → Nat → ibv_qp_attr → Nat → σ × Int) (hw : σ)
    (c : Context) (l r : QPInfo) :
    (modify_qp f hw c l r).result = Res.ok () ↔
      (f hw c.qp attr_init flags_init).2 = 0 ∧
      (f (f hw c.qp attr_init flags_init).1 c.qp (attr_rtr r) flags_rtr).2 = 0 ∧
      (f (f (f hw c.qp attr_init flags_init).1 c.qp (attr_rtr r) flags_rtr).1 c.qp
            attr_rts flags_rts).2 = 0 := by
  by_cases h1 : (f hw c.qp attr_init flags_init).2 = 0
  · by_cases h2 : (f (f hw c.qp attr_init flags_init).1 c.qp (attr_rtr r) flags_rtr).2 = 0
    · by_cases h3 : (f (f (f hw c.qp attr_init flags_init).1 c.qp (attr_rtr r) flags_rtr).1 c.qp
            attr_rts flags_rts).2 = 0
      · simp [modify_qp_accept f hw c l r h1 h2 h3, h1, h2, h3]
      · simp [modify_qp_reject_rts f hw c l r h1 h2 h3, h1, h2, h3]
    · simp [modify_qp_reject_rtr f hw c l r h1 h2, h1, h2]
  · simp [modify_qp_reject_init f hw c l r h1, h1]

/-! ## The completion wait -/

theorem wait_completion_leaves (ps : List PollResult) (wc : ibv_wc)
    (h : ∃ p ∈ ps, poll_ret p ≠ 0) : ∃ r, (wait_completion ps wc).2 = some r := by
  induction ps generalizing wc with
  | nil => simp at h
  | cons p ps ih =>
    by_cases hp : poll_ret p = 0
    · obtain ⟨q, hq, hq0⟩ := h
      have hq2 : q ∈ ps := by
        rcases List.mem_cons.mp hq with rfl | h2
        · exact absurd hp hq0
        · exact h2
      obtain ⟨r, hr⟩ := ih (poll_wc p wc) ⟨q, hq2, hq0⟩
      exact ⟨r, by simp [wait_completion, hp, hr]⟩
    · exact ⟨(poll_ret p, poll_wc p wc), by simp [wait_completion, hp]⟩

theorem client_status {σ : Type} (e : Env σ) (c : Context) (r : QPInfo) (s : Nat)
    (h : (client e c r).2.status = some s) : s = 0 := by
  simp only [client] at h
  split at h
  · simp [Outcome.status] at h
  · split_ifs at h <;> simp [Outcome.status] at h <;> omega

theorem client_returns {σ : Type} (e : Env σ) (c : Context) (r : QPInfo)
    (h : ∃ p ∈ e.polls, poll_ret p ≠ 0) : (client e c r).2 = Outcome.ret 0 := by
  obtain ⟨w, hw⟩ := wait_completion_leaves e.polls e.wc0 h
  simp only [client, hw]
  split_ifs <;> rfl


theorem released_append (a b : List Event) : released (a ++ b) = released a ++ released b := by
  simp [released]

theorem posted_replicate_poll (n cq k : Nat) :
    posted (List.replicate n (Event.poll_cq cq k)) = [] := by
  induction n with
  | zero => rfl
  | succ n ih => simp [List.replicate_succ, posted, ih]

theorem released_replicate_poll (n cq k : Nat) :
    released (List.replicate n (Event.poll_cq cq k)) = [] := by
  induction n with
  | zero => rfl
  | succ n ih =>
    simp only [released] at ih
    simp [List.replicate_succ, released, Event.isRelease, ih]

theorem init_ctx_released {σ : Type} (e : Env σ) (n : Nat) : released (init_ctx e n).1 = [] := by
  simp only [init_ctx]
  split_ifs <;> simp [released, Event.isRelease]

theorem exchange_released (c : Context) (d : QPInfo) : released (exchange_events c d) = [] := by
  simp [exchange_events, released, Event.isRelease]

theorem modify_qp_released {σ : Type} (f : σ → Nat → ibv_qp_attr → Nat → σ × Int) (hw : σ)
    (c : Context) (l r : QPInfo) : released (modify_qp f hw c l r).trace = [] := by
  simp only [modify_qp]
  split_ifs <;> simp [released, Event.isRelease]

theorem modify_qp_posted {σ : Type} (f : σ → Nat → ibv_qp_attr → Nat → σ × Int) (hw : σ)
    (c : Context) (l r : QPInfo) : posted (modify_qp f hw c l r).trace = [] := by
  simp only [modify_qp]
  split_ifs <;> simp [posted]

theorem server_loop_released (landed : Nat → List Nat → List Nat) (buf k : Nat) :
    ∀ (i : Nat) (mem : List Nat), released (server_loop landed buf k i mem).1 = [] := by
  induction k with
  | zero => intro i mem; rfl
  | succ k ih =>
    intro i mem
    simp only [server_loop]
    split_ifs
    · simp [released, Event.isRelease]
    · have := ih (i + 1) (landed i mem)
      simp only [released] at this
      simp [released, Event.isRelease, this]

theorem server_loop_posted (landed : Nat → List Nat → List Nat) (buf k : Nat) :
    ∀ (i : Nat) (mem : List Nat), posted (server_loop landed buf k i mem).1 = [] := by
  induction k with
  | zero => intro i mem; rfl
  | succ k ih =>
    intro i mem
    simp only [server_loop]
    split_ifs
    · simp [posted]
    · simp [posted, ih (i + 1) (landed i mem)]

theorem server_released {σ : Type} (e : Env σ) (c : Context) : released (server e c).1 = [] := by
  simp only [server, released_append, server_loop_released]
  simp [released, Event.isRelease]

theorem server_posted {σ : Type} (e : Env σ) (c : Context) : posted (server e c).1 = [] := by
  simp only [server, posted_append, server_loop_posted]
  simp [posted]

theorem client_released {σ : Type} (e : Env σ) (c : Context) (r : QPInfo) :
    released (client e c r).1 = [] := by
  simp only [client]
  split <;> split_ifs <;>
    simp only [released_append, released_replicate_poll] <;>
    simp [released, Event.isRelease]

theorem client_posted {σ : Type} (e : Env σ) (c : Context) (r : QPInfo) :
    posted (client e c r).1 = [client_wr e c r] := by
  simp only [client]
  split <;> split_ifs <;>
    simp only [posted_append, posted_replicate_poll] <;>
    simp [posted]

theorem init_ctx_ok {σ : Type} (e : Env σ) (n : Nat) (t : List Event) (c : Context)
    (h : init_ctx e n = (t, Res.ok c)) :
    c = { ctx := e.ctx, pd := e.pd, mr := e.mr, cq := e.cq, qp := e.qp, buf := e.buf,
          port_attr_lid := e.lid, mem := List.replicate n 0 } ∧
    Event.reg_mr e.pd e.buf n
      (IBV_ACCESS_LOCAL_WRITE ||| IBV_ACCESS_REMOTE_WRITE ||| IBV_ACCESS_REMOTE_READ) ∈ t := by
  simp only [init_ctx] at h
  split_ifs at h <;> cases h
  simp

theorem strlen_client_mem (mem : List Nat) :
    strlen (strcpy mem "Client: Hello RDMA World!") = 25 := by
  simp [strlen, strcpy, bytes, List.takeWhile]

theorem main_posted {σ : Type} (e : Env σ) (argv : List String) :
    posted (main e argv).trace = [] ∨
    ∃ t0 c, init_ctx e 1024 = (t0, Res.ok c) ∧
      posted (main e argv).trace = [client_wr e c (scanf_remote e.stdin e.remote_info0).2] ∧
      Event.reg_mr e.pd e.buf 1024
        (IBV_ACCESS_LOCAL_WRITE ||| IBV_ACCESS_REMOTE_WRITE ||| IBV_ACCESS_REMOTE_READ)
        ∈ (main e argv).trace := by
  by_cases hargs : argv.length = 2
  · rcases hi : init_ctx e 1024 with ⟨t0, r⟩
    have h0 : posted t0 = [] := by
      have := init_ctx_posted e 1024
      rw [hi] at this
      exact this
    cases r with
    | exit s =>
      left
      simp only [main, hargs, hi]
      simpa using h0
    | fault =>
      left
      simp only [main, hargs, hi]
      simpa using h0
    | ok c =>
      rw [main_after_init e argv t0 c hargs hi]
      split
      · left
        simp only [posted_append, h0, exchange_posted, modify_qp_posted, List.append_nil]
      · left
        simp only [posted_append, h0, exchange_posted, modify_qp_posted, List.append_nil]
      · split_ifs
        · left
          simp only [posted_append, h0, exchange_posted, modify_qp_posted,
            server_posted, List.append_nil]
          simp [posted]
        · right
          refine ⟨t0, c, rfl, ?_, ?_⟩
          · simp only [posted_append, h0, exchange_posted, modify_qp_posted,
              client_posted, List.append_nil]
            simp [posted]
          · have := (init_ctx_ok e 1024 t0 c hi).2
            simp only [List.mem_append]
            exact Or.inl (Or.inl (Or.inl (Or.inl this)))
  · left
    simp [main, hargs, posted]


theorem bytes_greeting :
    bytes "Client: Hello RDMA World!" ++ [0] =
      [67, 108, 105, 101, 110, 116, 58, 32, 72, 101, 108, 108, 111, 32, 82, 68, 77, 65, 32,
       87, 111, 114, 108, 100, 33, 0] := by decide

theorem client_payload (base : Nat) (mem : List Nat) (lkey : Nat) :
    sge_bytes base (strcpy mem "Client: Hello RDMA World!")
      { addr := base, length := 26, lkey := lkey } = bytes "Client: Hello RDMA World!" ++ [0] := by
  simp only [sge_bytes, strcpy, Nat.sub_self, List.drop_zero]
  exact List.take_left' (by decide)

theorem server_check_greeting (rest : List Nat) :
    server_check ((bytes "Client: Hello RDMA World!" ++ [0]) ++ rest) = true := by
  rw [bytes_greeting]
  simp [server_check, strncmp, bytes]

theorem server_check_waiting (mem : List Nat) :
    server_check (strcpy mem "Server: I am waiting for data...") = false := by
  simp [server_check, strcpy, strncmp, bytes]


/-! ## Decimal text: printing and reading back -/

theorem isspace_of_isdigit (c : Nat) (h : isdigit c = true) : isspace c = false := by
  simp only [isdigit, Bool.and_eq_true, decide_eq_true_eq] at h
  simp only [isspace, Bool.or_eq_false_iff, Bool.and_eq_false_iff, decide_eq_false_iff_not]
  omega

theorem dec_digits_spec (f : Nat) :
    ∀ n, n < f →
      dec_digits f n ≠ [] ∧ (∀ c ∈ dec_digits f n, isdigit c = true) ∧
      (dec_digits f n).foldl (fun a c => a * 10 + (c - 48)) 0 = n := by
  induction f with
  | zero => intro n h; omega
  | succ f ih =>
    intro n hn
    by_cases h10 : n < 10
    · simp only [dec_digits, h10, if_true]
      refine ⟨by simp, ?_, by simp⟩
      intro c hc
      simp only [List.mem_singleton] at hc
      subst hc
      simp only [isdigit, Bool.and_eq_true, decide_eq_true_eq]
      omega
    · simp only [dec_digits, h10, if_false]
      obtain ⟨-, hd, hv⟩ := ih (n / 10) (by omega)
      refine ⟨by simp, ?_, ?_⟩
      · intro c hc
        rcases List.mem_append.mp hc with h | h
        · exact hd c h
        · simp only [List.mem_singleton] at h
          subst h
          simp only [isdigit, Bool.and_eq_true, decide_eq_true_eq]
          omega
      · rw [List.foldl_append, hv]
        simp only [List.foldl_cons, List.foldl_nil]
        omega

theorem fmt_u_spec (n : Nat) :
    fmt_u n ≠ [] ∧ (∀ c ∈ fmt_u n, isdigit c = true) ∧
    (fmt_u n).foldl (fun a c => a * 10 + (c - 48)) 0 = n :=
  dec_digits_spec (n + 1) n (Nat.lt_succ_self n)

theorem scan_digits_append (ds rest : List Nat) (acc : Nat)
    (hd : ∀ c ∈ ds, isdigit c = true) (hr : ∀ c ∈ rest.head?, isdigit c = false) :
    scan_digits (ds ++ rest) acc = (ds.foldl (fun a c => a * 10 + (c - 48)) acc, rest) := by
  induction ds generalizing acc with
  | nil =>
    cases rest with
    | nil => rfl
    | cons c cs =>
      have hc : isdigit c = false := hr c (by simp)
      simp [scan_digits, hc]
  | cons d ds ih =>
    have h1 : isdigit d = true := hd d (by simp)
    simp only [List.cons_append, scan_digits, h1, if_true, List.foldl_cons]
    exact ih _ (fun c hc => hd c (by simp [hc]))

theorem dropWhile_isspace_append (sp l : List Nat) (hsp : ∀ x ∈ sp, isspace x = true)
    (hl : ∀ c ∈ l.head?, isspace c = false) : (sp ++ l).dropWhile isspace = l := by
  induction sp with
  | nil =>
    cases l with
    | nil => rfl
    | cons c cs =>
      have hc : isspace c = false := hl c (by simp)
      simp [List.dropWhile, hc]
  | cons s sp ih =>
    have h1 : isspace s = true := hsp s (by simp)
    simp only [List.cons_append, List.dropWhile, h1]
    exact ih (fun x hx => hsp x (by simp [hx]))

/-- Reading back a printed number: after white space, the digits `printf`
wrote for `n`, followed by a byte that is no digit, convert to `n` (through
`strtoul`, truncated to the width of the object) and leave the input at that
byte. -/
theorem scan_unsigned_fmt_u (w n : Nat) (sp rest : List Nat) (c : Nat)
    (hsp : ∀ x ∈ sp, isspace x = true) (hc : isdigit c = false) :
    scan_unsigned w (sp ++ (fmt_u n ++ c :: rest))
      = some (strtoul false n % 2 ^ w, c :: rest) := by
  obtain ⟨hne, hdig, hval⟩ := fmt_u_spec n
  cases hD : fmt_u n with
  | nil => exact absurd hD hne
  | cons d ds =>
    rw [hD] at hdig hval
    have hd : isdigit d = true := hdig d (by simp)
    have hdrop : (sp ++ (d :: ds ++ c :: rest)).dropWhile isspace = d :: (ds ++ c :: rest) := by
      rw [dropWhile_isspace_append sp _ hsp]
      · rfl
      · intro x hx
        simp only [List.cons_append, List.head?_cons, Option.mem_def, Option.some.injEq] at hx
        subst hx
        exact isspace_of_isdigit _ hd
    have hscan : scan_digits (d :: (ds ++ c :: rest)) 0 = (n, c :: rest) := by
      have := scan_digits_append (d :: ds) (c :: rest) 0 hdig (by
        intro x hx
        simp only [List.head?_cons, Option.mem_def, Option.some.injEq] at hx
        subst hx
        exact hc)
      rw [hval] at this
      exact this
    simp only [scan_unsigned, hdrop, hd, if_true, hscan]

theorem digit_runs_digits (ds rest cur : List Nat) (hd : ∀ c ∈ ds, isdigit c = true) :
    digit_runs (ds ++ rest) cur = digit_runs rest (cur ++ ds) := by
  induction ds generalizing cur with
  | nil => simp
  | cons d ds ih =>
    have h1 : isdigit d = true := hd d (by simp)
    simp only [List.cons_append, digit_runs, h1, if_true, List.append_eq]
    rw [ih _ (fun c hc => hd c (by simp [hc]))]
    simp

theorem digit_runs_nondigits (l rest : List Nat) (hl : ∀ c ∈ l, isdigit c = false) :
    digit_runs (l ++ rest) [] = digit_runs rest [] := by
  induction l with
  | nil => rfl
  | cons c l ih =>
    have h1 : isdigit c = false := hl c (by simp)
    simp only [List.cons_append, digit_runs, h1, List.append_eq]
    simp only [Bool.false_eq_true, if_false, if_true]
    exact ih (fun x hx => hl x (by simp [hx]))

/-- One printed line `label number \n` contributes exactly its number. -/
theorem digit_runs_line (label ds rest : List Nat) (hl : ∀ c ∈ label, isdigit c = false)
    (hd : ∀ c ∈ ds, isdigit c = true) (hne : ds ≠ []) :
    digit_runs (label ++ (ds ++ 10 :: rest)) [] = ds :: digit_runs rest [] := by
  rw [digit_runs_nondigits label _ hl, digit_runs_digits ds _ [] hd]
  have h10 : isdigit 10 = false := by decide
  simp only [List.nil_append, digit_runs, h10, Bool.false_eq_true, if_false, hne]

theorem digit_runs_print_local_info (d : QPInfo) :
    digit_runs (print_local_info d) [] =
      [fmt_u d.qp_num, fmt_u d.gid.subnet_prefix, fmt_u d.gid.interface_id,
       fmt_u d.addr, fmt_u d.rkey] := by
  have hnl : bytes "\n" = [10] := by decide
  simp only [print_local_info, hnl, List.append_assoc, List.cons_append, List.nil_append]
  rw [digit_runs_nondigits _ _ (by decide)]
  rw [digit_runs_line _ _ _ (by decide) (fmt_u_spec _).2.1 (fmt_u_spec _).1]
  rw [digit_runs_line _ _ _ (by decide) (fmt_u_spec _).2.1 (fmt_u_spec _).1]
  rw [digit_runs_line _ _ _ (by decide) (fmt_u_spec _).2.1 (fmt_u_spec _).1]
  rw [digit_runs_line _ _ _ (by decide) (fmt_u_spec _).2.1 (fmt_u_spec _).1]
  rw [digit_runs_line _ _ _ (by decide) (fmt_u_spec _).2.1 (fmt_u_spec _).1]
  have hfoot := digit_runs_nondigits (bytes ruler) [] (by decide)
  rw [List.append_nil] at hfoot
  rw [hfoot]
  rfl

theorem typed_reply_print_local_info (d : QPInfo) :
    typed_reply (print_local_info d) =
      fmt_u d.qp_num ++ 32 :: (fmt_u d.gid.subnet_prefix ++ 32 ::
        (fmt_u d.gid.interface_id ++ 32 :: (fmt_u d.addr ++ 32 :: (fmt_u d.rkey ++ 32 :: [10])))) := by
  simp [typed_reply, digit_runs_print_local_info]

theorem scanf_remote_five (a b c d e : Nat) (r : QPInfo) :
    scanf_remote
      (fmt_u a ++ 32 :: (fmt_u b ++ 32 :: (fmt_u c ++ 32 :: (fmt_u d ++ 32 ::
        (fmt_u e ++ 32 :: [10]))))) r =
      (5, { qp_num := strtoul false a % 2 ^ 32, lid := r.lid,
            gid := { subnet_prefix := strtoul false b % 2 ^ 64,
                     interface_id := strtoul false c % 2 ^ 64 },
            addr := strtoul false d % 2 ^ 64, rkey := strtoul false e % 2 ^ 32 }) := by
  have hsp : ∀ x ∈ [32], isspace x = true := by decide
  have h32 : isdigit 32 = false := by decide
  have e1 := fun rest => scan_unsigned_fmt_u 32 a [] rest 32 (by simp) h32
  have e2 := fun rest => scan_unsigned_fmt_u 64 b [32] rest 32 hsp h32
  have e3 := fun rest => scan_unsigned_fmt_u 64 c [32] rest 32 hsp h32
  have e4 := fun rest => scan_unsigned_fmt_u 64 d [32] rest 32 hsp h32
  have e5 := fun rest => scan_unsigned_fmt_u 32 e [32] rest 32 hsp h32
  simp only [List.nil_append, List.singleton_append] at e1 e2 e3 e4 e5
  simp only [scanf_remote, e1, e2, e3, e4, e5]


/-- No run of `main` contains a release call. -/
theorem main_released {σ : Type} (e : Env σ) (argv : List String) :
    released (main e argv).trace = [] := by
  by_cases hargs : argv.length = 2
  · rcases hi : init_ctx e 1024 with ⟨t0, r⟩
    have h0 : released t0 = [] := by
      have := init_ctx_released e 1024
      rw [hi] at this
      exact this
    cases r with
    | exit s =>
      simp only [main, hargs, hi]
      simpa using h0
    | fault =>
      simp only [main, hargs, hi]
      simpa using h0
    | ok c =>
      rw [main_after_init e argv t0 c hargs hi]
      split
      · simp only [released_append, h0, exchange_released, modify_qp_released, List.append_nil]
      · simp only [released_append, h0, exchange_released, modify_qp_released, List.append_nil]
      · split_ifs
        · simp only [released_append, h0, exchange_released, modify_qp_released,
            server_released, List.append_nil]
          simp [released, Event.isRelease]
        · simp only [released_append, h0, exchange_released, modify_qp_released,
            client_released, List.append_nil]
          simp [released, Event.isRelease]
  · simp [main, hargs, released, Event.isRelease]


theorem strtoul_of_lt (n : Nat) (h : n < 2 ^ 64) : strtoul false n = n := by
  unfold strtoul
  rw [if_neg (Nat.not_le.mpr h)]
  simp

/-- The round trip of the console exchange: printed, typed in the prompted
order and read back, the four exchanged fields arrive and the link identifier
keeps what the target held. -/
theorem scanf_typed_reply (d r : QPInfo) (hd : d.wf) :
    scanf_remote (typed_reply (print_local_info d)) r = (5, { d with lid := r.lid }) := by
  obtain ⟨h1, -, h3, h4, h5, h6⟩ := hd
  have h1' : d.qp_num < 2 ^ 64 := by omega
  have h6' : d.rkey < 2 ^ 64 := by omega
  rw [typed_reply_print_local_info, scanf_remote_five]
  simp only [strtoul_of_lt _ h1', strtoul_of_lt _ h3, strtoul_of_lt _ h4, strtoul_of_lt _ h5,
    strtoul_of_lt _ h6', Nat.mod_eq_of_lt h1, Nat.mod_eq_of_lt h3, Nat.mod_eq_of_lt h4,
    Nat.mod_eq_of_lt h5, Nat.mod_eq_of_lt h6]

/-! ## The two branches of `main` -/

theorem main_client_run {σ : Type} (e : Env σ) (argv : List String) (t0 : List Event)
    (c : Context) (hargs : argv.length = 2) (hinit : init_ctx e 1024 = (t0, Res.ok c))
    (hm : (modify_qp e.ibv_modify_qp e.hw c (local_info_of e c)
            (scanf_remote e.stdin e.remote_info0).2).result = Res.ok ())
    (hcl : argv.getD 1 "" ≠ "server") :
    main e argv =
      ⟨t0 ++ exchange_events c (local_info_of e c) ++
        (modify_qp e.ibv_modify_qp e.hw c (local_info_of e c)
          (scanf_remote e.stdin e.remote_info0).2).trace ++
        [Event.printf "QP is in RTS state! Ready to transfer.\n" []] ++
        (client e c (scanf_remote e.stdin e.remote_info0).2).1,
       (modify_qp e.ibv_modify_qp e.hw c (local_info_of e c)
          (scanf_remote e.stdin e.remote_info0).2).hw,
       (client e c (scanf_remote e.stdin e.remote_info0).2).2, client_mem c⟩ := by
  rw [main_after_init e argv t0 c hargs hinit]
  simp only [hm, hcl, decide_False, Bool.false_eq_true, if_false]

theorem main_server_run {σ : Type} (e : Env σ) (argv : List String) (t0 : List Event)
    (c : Context) (hargs : argv.length = 2) (hinit : init_ctx e 1024 = (t0, Res.ok c))
    (hm : (modify_qp e.ibv_modify_qp e.hw c (local_info_of e c)
            (scanf_remote e.stdin e.remote_info0).2).result = Res.ok ())
    (hsv : argv.getD 1 "" = "server") :
    main e argv =
      ⟨t0 ++ exchange_events c (local_info_of e c) ++
        (modify_qp e.ibv_modify_qp e.hw c (local_info_of e c)
          (scanf_remote e.stdin e.remote_info0).2).trace ++
        [Event.printf "QP is in RTS state! Ready to transfer.\n" []] ++ (server e c).1,
       (modify_qp e.ibv_modify_qp e.hw c (local_info_of e c)
          (scanf_remote e.stdin e.remote_info0).2).hw, (server e c).2,
       (server_loop e.landed c.buf 10 0 (server_mem c)).2⟩ := by
  rw [main_after_init e argv t0 c hargs hinit]
  simp only [hm, hsv, decide_True, if_true]

/-! ## The server's watch -/

theorem sleeps_append (a b : List Event) : sleeps (a ++ b) = sleeps a + sleeps b := by
  induction a with
  | nil => simp [sleeps]
  | cons x t ih =>
    cases x <;> simp [sleeps, ih]
    omega

theorem init_ctx_sleeps {σ : Type} (e : Env σ) (n : Nat) : sleeps (init_ctx e n).1 = 0 := by
  simp only [init_ctx]
  split_ifs <;> simp [sleeps]

theorem exchange_sleeps (c : Context) (d : QPInfo) : sleeps (exchange_events c d) = 0 := by
  simp [exchange_events, sleeps]

theorem modify_qp_sleeps {σ : Type} (f : σ → Nat → ibv_qp_attr → Nat → σ × Int) (hw : σ)
    (c : Context) (l r : QPInfo) : sleeps (modify_qp f hw c l r).trace = 0 := by
  simp only [modify_qp]
  split_ifs <;> simp [sleeps]

/-- The server's loop when a write `W` lands during the `k`-th sleep and the
buffer is otherwise left alone: the check fails on the iterations before `k`,
succeeds on iteration `k`, and the loop is left there. -/
theorem server_loop_lands (landed : Nat → List Nat → List Nat) (buf k : Nat)
    (W : List Nat → List Nat)
    (hL : ∀ i mem, landed i mem = if i = k then W mem else mem) (mem : List Nat)
    (hbefore : server_check mem = false) (hafter : server_check (W mem) = true) :
    ∀ (n i : Nat), i ≤ k → k < i + n →
      sleeps (server_loop landed buf n i mem).1 = k - i + 1 ∧
      Event.printf "\n🎉 SUCCESS! Data changed detected!\n" [] ∈
        (server_loop landed buf n i mem).1 ∧
      (server_loop landed buf n i mem).2 = W mem := by
  intro n
  induction n with
  | zero => intro i h1 h2; omega
  | succ n ih =>
    intro i h1 h2
    by_cases hik : i = k
    · subst hik
      have hl : landed i mem = W mem := by rw [hL]; simp
      simp only [server_loop, hl, hafter, if_true]
      simp [sleeps]
    · have hl : landed i mem = mem := by rw [hL]; simp [hik]
      obtain ⟨a, b, c⟩ := ih (i + 1) (by omega) (by omega)
      simp only [server_loop, hl, hbefore, Bool.false_eq_true, if_false]
      refine ⟨?_, ?_, c⟩
      · rw [sleeps_append, a]
        simp only [sleeps]
        omega
      · simp [b]

theorem server_check_iff (mem : List Nat) :
    server_check mem = true ↔ mem.take 6 = bytes "Client" := by
  have hb : bytes "Client" = [67, 108, 105, 101, 110, 116] := by decide
  rw [hb]
  rcases mem with _ | ⟨a, _ | ⟨b, _ | ⟨c, _ | ⟨d, _ | ⟨e, _ | ⟨f, rest⟩⟩⟩⟩⟩⟩ <;>
    simp [server_check, strncmp, hb] <;> omega

/-! ## The claims -/

/-- C1: under every driver, `modify_qp` issues its transition requests in the
order INIT, RTR, RTS, the request for RTR only after the request for INIT was
accepted (answer 0) and the request for RTS only after both earlier ones were
accepted; against a queue pair that starts in RESET and accepts only
RESET→INIT, INIT→RTR and RTR→RTS, the attempts made are an initial part of
exactly those three transitions (none is out of order), they are the requests
of the trace, a normal return leaves the queue pair in RTS, and a willing
queue pair gives a normal return. -/
theorem modify_qp_transitions_in_order {σ : Type}
    (f : σ → Nat → ibv_qp_attr → Nat → σ × Int) (hw : σ) (willing : Nat → Bool)
    (ctx : Context) (loc remote : QPInfo) :
    requested_states (modify_qp f hw ctx loc remote).trace
        <+: [IBV_QPS_INIT, IBV_QPS_RTR, IBV_QPS_RTS] ∧
    (IBV_QPS_RTR ∈ requested_states (modify_qp f hw ctx loc remote).trace →
      (f hw ctx.qp attr_init flags_init).2 = 0) ∧
    (IBV_QPS_RTS ∈ requested_states (modify_qp f hw ctx loc remote).trace →
      (f hw ctx.qp attr_init flags_init).2 = 0 ∧
      (f (f hw ctx.qp attr_init flags_init).1 ctx.qp (attr_rtr remote) flags_rtr).2 = 0) ∧
    (modify_qp (qp_model_step willing) QpModel.fresh ctx loc remote).hw.log
        <+: [(IBV_QPS_RESET, IBV_QPS_INIT), (IBV_QPS_INIT, IBV_QPS_RTR),
             (IBV_QPS_RTR, IBV_QPS_RTS)] ∧
    requested_states (modify_qp (qp_model_step willing) QpModel.fresh ctx loc remote).trace
        = (modify_qp (qp_model_step willing) QpModel.fresh ctx loc remote).hw.log.map Prod.snd ∧
    (∀ p ∈ (modify_qp (qp_model_step willing) QpModel.fresh ctx loc remote).hw.log,
        legal p.1 p.2 = true) ∧
    ((modify_qp (qp_model_step willing) QpModel.fresh ctx loc remote).result = Res.ok () →
      (modify_qp (qp_model_step willing) QpModel.fresh ctx loc remote).hw.state = IBV_QPS_RTS) ∧
    ((∀ k, willing k = true) →
      (modify_qp (qp_model_step willing) QpModel.fresh ctx loc remote).result = Res.ok ()) := by
  refine ⟨?_, ?_, ?_, ?_⟩
  · simp only [modify_qp]
    split_ifs <;> simp [requested_states, attr_init, attr_rtr, attr_rts]
  · intro h
    by_contra h1
    rw [modify_qp_reject_init f hw ctx loc remote h1] at h
    simp [requested_states, attr_init, IBV_QPS_INIT, IBV_QPS_RTR] at h
  · intro h
    by_cases h1 : (f hw ctx.qp attr_init flags_init).2 = 0
    · refine ⟨h1, ?_⟩
      by_contra h2
      rw [modify_qp_reject_rtr f hw ctx loc remote h1 h2] at h
      simp [requested_states, attr_init, attr_rtr, IBV_QPS_INIT, IBV_QPS_RTR, IBV_QPS_RTS] at h
    · rw [modify_qp_reject_init f hw ctx loc remote h1] at h
      simp [requested_states, attr_init, IBV_QPS_INIT, IBV_QPS_RTS] at h
  · cases h0 : willing 0 <;> cases h1 : willing 1 <;> cases h2 : willing 2 <;>
      simp [modify_qp, qp_model_step, QpModel.fresh, h0, h1, h2, legal, requested_states,
        attr_init, attr_rtr, attr_rts, flags_init_state, flags_rtr_state, flags_rts_state,
        IBV_QPS_RESET, IBV_QPS_INIT, IBV_QPS_RTR, IBV_QPS_RTS] <;>
      first
        | exact ⟨0, h0⟩
        | exact ⟨1, h1⟩
        | exact ⟨2, h2⟩

/-- Witness of C1: with a willing queue pair the run of `modify_qp` returns
normally and the queue pair is in RTS. -/
theorem modify_qp_transitions_in_order_witness :
    (modify_qp (qp_model_step (fun _ => true)) QpModel.fresh
        ctx_ok env_ok.remote_info0 env_ok.remote_info0).result = Res.ok () ∧
    (modify_qp (qp_model_step (fun _ => true)) QpModel.fresh
        ctx_ok env_ok.remote_info0 env_ok.remote_info0).hw.state = IBV_QPS_RTS :=
  ⟨by decide,
   (modify_qp_transitions_in_order (qp_model_step (fun _ => true)) QpModel.fresh
      (fun _ => true) ctx_ok env_ok.remote_info0 env_ok.remote_info0).2.2.2.2.2.2.1 (by decide)⟩

/-- Counterexample to C2: for the descriptor `info_a` (link identifier 1), the
remote descriptor read from the numbers typed in the prompted order differs
from `info_a`: its link identifier is the stale one, 0; and the printed text
itself, read by `scanf`, assigns no field at all. -/
theorem console_exchange_drops_lid :
    (scanf_remote (typed_reply (print_local_info info_a)) info_stale).2 ≠ info_a ∧
    (scanf_remote (typed_reply (print_local_info info_a)) info_stale).2.lid = info_stale.lid ∧
    info_stale.lid ≠ info_a.lid ∧
    scanf_remote (print_local_info info_a) info_stale = (0, info_stale) := by
  refine ⟨?_, ?_, ?_, ?_⟩ <;> decide

/-- C2, amended: for every local descriptor whose fields are in range, when
the numbers of the printed text are typed in the prompted order, `scanf`
assigns five values and the remote descriptor has the queue-pair number, both
halves of the global identifier, the memory address and the access key of the
local descriptor; the link identifier is not exchanged and keeps what the
remote descriptor held before. -/
theorem console_exchange_delivers_four_fields (d r : QPInfo) (hd : d.wf) :
    scanf_remote (typed_reply (print_local_info d)) r = (5, { d with lid := r.lid }) := by
  have h := scanf_typed_reply d r hd
  exact h

/-- Witness of C2: the exchange of `info_a`. -/
theorem console_exchange_delivers_four_fields_witness :
    scanf_remote (typed_reply (print_local_info info_a)) info_stale =
      (5, { qp_num := 17, lid := 0,
            gid := { subnet_prefix := 0, interface_id := 281473913979137 },
            addr := 94380152369152, rkey := 4660 }) :=
  console_exchange_delivers_four_fields info_a info_stale
    ⟨by decide, by decide, by decide, by decide, by decide, by decide⟩

/-- C3: every work request that a run of `main` posts is the only one posted,
is a remote write (`IBV_WR_RDMA_WRITE`) with `IBV_SEND_SIGNALED`, has exactly
one scatter-gather entry, whose address is the start of the buffer and whose
key is the local key of its memory region, and targets the address and access
key of the remote descriptor read from stdin; that buffer is the one the run
registered. -/
theorem client_posts_one_remote_write {σ : Type} (e : Env σ) (argv : List String)
    (wr : ibv_send_wr) (h : wr ∈ posted (main e argv).trace) :
    posted (main e argv).trace = [wr] ∧
    wr.opcode = IBV_WR_RDMA_WRITE ∧
    wr.send_flags = IBV_SEND_SIGNALED ∧
    wr.num_sge = 1 ∧
    wr.sg_list = [{ addr := e.buf, length := 26, lkey := e.mr_lkey }] ∧
    wr.remote_addr = (scanf_remote e.stdin e.remote_info0).2.addr ∧
    wr.rkey = (scanf_remote e.stdin e.remote_info0).2.rkey ∧
    Event.reg_mr e.pd e.buf 1024
      (IBV_ACCESS_LOCAL_WRITE ||| IBV_ACCESS_REMOTE_WRITE ||| IBV_ACCESS_REMOTE_READ)
      ∈ (main e argv).trace := by
  rcases main_posted e argv with h0 | ⟨t0, c, hi, hp, hreg⟩
  · rw [h0] at h
    simp at h
  · rw [hp] at h
    simp only [List.mem_singleton] at h
    subst h
    obtain ⟨hc, -⟩ := init_ctx_ok e 1024 t0 c hi
    refine ⟨hp, rfl, rfl, rfl, ?_, rfl, rfl, hreg⟩
    have hb : c.buf = e.buf := by rw [hc]
    simp only [client_wr, client_sge, client_mem, strlen_client_mem, hb]

/-- Witness of C3: the work request of the client on `env_ok`. -/
theorem client_posts_one_remote_write_witness :
    posted (main env_ok ["rdma_demo", "client"]).trace =
      [{ wr_id := 1, next := 0, sg_list := [{ addr := 12288, length := 26, lkey := 77 }],
         num_sge := 1, opcode := 0, send_flags := 2, remote_addr := 16384, rkey := 99 }] :=
  (client_posts_one_remote_write env_ok ["rdma_demo", "client"]
    { wr_id := 1, next := 0, sg_list := [{ addr := 12288, length := 26, lkey := 77 }],
      num_sge := 1, opcode := 0, send_flags := 2, remote_addr := 16384, rkey := 99 }
    (by decide)).1

/-- C4, the code at the failing input: when the polls answer "no entry" and
then an error, the loop is left after the second call with return value -1 and
`wc` still holding its initial contents; the run goes on to read `wc.status`,
reports success and returns 0, although no completion was retrieved. -/
theorem wait_left_on_poll_error :
    wait_completion env_poll_error.polls env_poll_error.wc0
      = (2, some (-1, env_poll_error.wc0)) ∧
    (main env_poll_error ["rdma_demo", "client"]).outcome = Outcome.ret 0 ∧
    Event.printf "Client: Write Success!\n" [] ∈
      (main env_poll_error ["rdma_demo", "client"]).trace := by
  refine ⟨?_, ?_, ?_⟩ <;> decide

/-- C5, the code at the failing inputs: when `ibv_alloc_pd` answers NULL the
run still calls `malloc`, `memset` and `ibv_reg_mr` with the NULL protection
domain; when `malloc` answers NULL it still calls `memset` on the NULL buffer
and is killed by that write, with no `exit`; when `ibv_create_cq` answers NULL
it still calls `ibv_create_qp` with the NULL completion queue; where the run
ends with `exit(1)`, that comes only from the check of a later step. -/
theorem init_ctx_uses_missing_resources :
    init_ctx env_pd_null 1024 =
      ([Event.get_device_list, Event.open_device 4200, Event.get_device_name 4200,
        Event.printf "Create Context on device: %s\n" [4200], Event.alloc_pd 8192,
        Event.malloc 1024, Event.memset 12288 0 1024, Event.reg_mr 0 12288 1024 7,
        Event.perror "Reg MR failed"], Res.exit 1) ∧
    init_ctx env_malloc_null 1024 =
      ([Event.get_device_list, Event.open_device 4200, Event.get_device_name 4200,
        Event.printf "Create Context on device: %s\n" [4200], Event.alloc_pd 8192,
        Event.malloc 1024, Event.memset 0 0 1024], Res.fault) ∧
    init_ctx env_cq_null 1024 =
      ([Event.get_device_list, Event.open_device 4200, Event.get_device_name 4200,
        Event.printf "Create Context on device: %s\n" [4200], Event.alloc_pd 8192,
        Event.malloc 1024, Event.memset 12288 0 1024, Event.reg_mr 8300 12288 1024 7,
        Event.create_cq 8192 16, Event.create_qp 8300 (qp_init_attr 0),
        Event.perror "Create QP failed"], Res.exit 1) := by
  refine ⟨?_, ?_, ?_⟩ <;> decide

/-- Counterexample to C6: when memory registration fails the run ends with
`exit(1)`; an orderly teardown would release the protection domain, the buffer
and the device context, and the run releases nothing; the same on the normal
return of the client, where all six resources are due. -/
theorem no_teardown_after_failed_registration :
    (main env_mr_null ["rdma_demo", "client"]).outcome = Outcome.exit 1 ∧
    releases_due env_mr_null 1024 (main env_mr_null ["rdma_demo", "client"]).trace
      = [Event.dealloc_pd 8300, Event.free 12288, Event.close_device 8192] ∧
    released (main env_mr_null ["rdma_demo", "client"]).trace = [] ∧
    released (main env_mr_null ["rdma_demo", "client"]).trace
      ≠ releases_due env_mr_null 1024 (main env_mr_null ["rdma_demo", "client"]).trace ∧
    (main env_ok ["rdma_demo", "client"]).outcome = Outcome.ret 0 ∧
    releases_due env_ok 1024 (main env_ok ["rdma_demo", "client"]).trace
      = [Event.destroy_qp 8600, Event.destroy_cq 8500, Event.dereg_mr 8400,
         Event.dealloc_pd 8300, Event.free 12288, Event.close_device 8192] ∧
    released (main env_ok ["rdma_demo", "client"]).trace = [] := by
  refine ⟨?_, ?_, ?_, ?_, ?_, ?_, ?_⟩ <;> decide

/-- C6, amended: on every run of the program, whatever the environment and
however the run ends, the program makes no release call; in particular, when
the device list, the device context and the buffer were obtained and memory
registration fails, the process ends with `exit(1)` and nothing released. -/
theorem program_releases_nothing {σ : Type} (e : Env σ) (argv : List String) :
    released (main e argv).trace = [] ∧
    (argv.length = 2 → e.dev_list ≠ 0 → e.ctx ≠ 0 → e.buf ≠ 0 → e.mr = 0 →
      (main e argv).outcome = Outcome.exit 1 ∧ released (main e argv).trace = []) := by
  refine ⟨main_released e argv, ?_⟩
  intro hargs h1 h2 hb h3
  refine ⟨?_, main_released e argv⟩
  simp [main, hargs, init_ctx, h1, h2, hb, h3]

/-- Witness of C6: the run on `env_mr_null`. -/
theorem program_releases_nothing_witness :
    (main env_mr_null ["rdma_demo", "server"]).outcome = Outcome.exit 1 ∧
    released (main env_mr_null ["rdma_demo", "server"]).trace = [] :=
  (program_releases_nothing env_mr_null ["rdma_demo", "server"]).2
    (by decide) (by decide) (by decide) (by decide) (by decide)

/-- C7: in a run of `main` that has reached `modify_qp`, a rejected request
for INIT, RTR or RTS ends the process with `exit(1)`, no later transition is
requested and nothing is posted; when all three are accepted, every exit
status the run ends with is 0, the server ends with `return 0`, and so does
the client once a poll gives a non-zero answer. -/
theorem rejected_transition_is_fatal {σ : Type} (e : Env σ) (argv : List String)
    (t0 : List Event) (c : Context) (hargs : argv.length = 2)
    (hinit : init_ctx e 1024 = (t0, Res.ok c)) :
    ((answer_init e c).2 ≠ 0 →
      (main e argv).outcome = Outcome.exit 1 ∧
      requested_states (main e argv).trace = [IBV_QPS_INIT] ∧
      posted (main e argv).trace = []) ∧
    ((answer_init e c).2 = 0 → (answer_rtr e c).2 ≠ 0 →
      (main e argv).outcome = Outcome.exit 1 ∧
      requested_states (main e argv).trace = [IBV_QPS_INIT, IBV_QPS_RTR] ∧
      posted (main e argv).trace = []) ∧
    ((answer_init e c).2 = 0 → (answer_rtr e c).2 = 0 → (answer_rts e c).2 ≠ 0 →
      (main e argv).outcome = Outcome.exit 1 ∧
      requested_states (main e argv).trace = [IBV_QPS_INIT, IBV_QPS_RTR, IBV_QPS_RTS] ∧
      posted (main e argv).trace = []) ∧
    ((answer_init e c).2 = 0 → (answer_rtr e c).2 = 0 → (answer_rts e c).2 = 0 →
      (∀ s, (main e argv).outcome.status = some s → s = 0) ∧
      (argv.getD 1 "" = "server" → (main e argv).outcome = Outcome.ret 0) ∧
      ((∃ p ∈ e.polls, poll_ret p ≠ 0) → (main e argv).outcome = Outcome.ret 0)) := by
  have ht0 : requested_states t0 = [] := by
    have := init_ctx_requested e 1024
    rw [hinit] at this
    exact this
  have hp0 : posted t0 = [] := by
    have := init_ctx_posted e 1024
    rw [hinit] at this
    exact this
  rw [main_after_init e argv t0 c hargs hinit]
  refine ⟨?_, ?_, ?_, ?_⟩
  · intro h1
    rw [modify_qp_reject_init _ _ _ _ _ h1]
    simp [requested_states_append, posted_append, ht0, hp0, exchange_requested,
      exchange_posted, requested_states, posted, attr_init]
  · intro h1 h2
    rw [modify_qp_reject_rtr _ _ _ _ _ h1 h2]
    simp [requested_states_append, posted_append, ht0, hp0, exchange_requested,
      exchange_posted, requested_states, posted, attr_init, attr_rtr]
  · intro h1 h2 h3
    rw [modify_qp_reject_rts _ _ _ _ _ h1 h2 h3]
    simp [requested_states_append, posted_append, ht0, hp0, exchange_requested,
      exchange_posted, requested_states, posted, attr_init, attr_rtr, attr_rts]
  · intro h1 h2 h3
    rw [modify_qp_accept _ _ _ _ _ h1 h2 h3]
    refine ⟨?_, ?_, ?_⟩
    · intro s hs
      by_cases hsrv : argv.getD 1 "" = "server"
      · simp only [hsrv, decide_True, if_true] at hs
        simp only [server, Outcome.status, Option.some.injEq] at hs
        omega
      · simp only [hsrv, decide_False] at hs
        exact client_status e c _ s hs
    · intro hsrv
      simp only [hsrv, decide_True, if_true, server]
    · intro hp
      by_cases hsrv : argv.getD 1 "" = "server"
      · simp only [hsrv, decide_True, if_true, server]
      · simp only [hsrv, decide_False]
        exact client_returns e c _ hp

/-- Witness of C7: on the all-succeeding environment the server run ends with
`return 0`; with a queue pair that rejects the request for RTR the run ends
with `exit(1)` after the requests for INIT and RTR, nothing posted. -/
theorem rejected_transition_is_fatal_witness :
    (main env_ok ["rdma_demo", "server"]).outcome = Outcome.ret 0 ∧
    ((main env_rtr_rejected ["rdma_demo", "client"]).outcome = Outcome.exit 1 ∧
      requested_states (main env_rtr_rejected ["rdma_demo", "client"]).trace
        = [IBV_QPS_INIT, IBV_QPS_RTR] ∧
      posted (main env_rtr_rejected ["rdma_demo", "client"]).trace = []) :=
  ⟨(rejected_transition_is_fatal env_ok ["rdma_demo", "server"] (init_ctx env_ok 1024).1 ctx_ok
      (by decide) rfl).2.2.2 (by decide) (by decide) (by decide) |>.2.1 (by decide),
   (rejected_transition_is_fatal env_rtr_rejected ["rdma_demo", "client"]
      (init_ctx env_rtr_rejected 1024).1 ctx_ok (by decide) rfl).2.1
      (by decide) (by decide)⟩

/-- C8, the code at the failing input: when `ibv_post_send` answers 12 the
client calls `perror` and goes on to poll the completion queue; with a queue
that stays empty it is still polling after three calls, and when the third
poll answers with an error it reports success and returns 0. -/
theorem rejected_post_is_not_fatal :
    ((main env_post_rejected ["rdma_demo", "client"]).outcome = Outcome.spinning ∧
      Event.perror "Post Send failed" ∈ (main env_post_rejected ["rdma_demo", "client"]).trace ∧
      polls_made (main env_post_rejected ["rdma_demo", "client"]).trace = 3) ∧
    ((main env_post_rejected_poll_error ["rdma_demo", "client"]).outcome = Outcome.ret 0 ∧
      Event.perror "Post Send failed" ∈
        (main env_post_rejected_poll_error ["rdma_demo", "client"]).trace ∧
      polls_made (main env_post_rejected_poll_error ["rdma_demo", "client"]).trace = 3 ∧
      Event.printf "Client: Write Success!\n" [] ∈
        (main env_post_rejected_poll_error ["rdma_demo", "client"]).trace) := by
  refine ⟨⟨?_, ?_, ?_⟩, ?_, ?_, ?_, ?_⟩ <;> decide

/-- C9: in the two-endpoint scenario (both sides with the 1024-byte buffers of
`init_ctx`, both through `modify_qp`, the client reading the descriptor the
server printed, the fabric carrying out what the client's run posts during the
server's `k`-th sleep): the client's run posts one request whose single
scatter-gather entry starts at offset 0 of its buffer with length 26 and whose
target is the start of the server's buffer; the bytes that entry describes are
"Client: Hello RDMA World!" and a NUL; the server's run ends with the first 26
bytes of its buffer equal to that sequence; its loop sleeps `k + 1` times and
reports success: the check failed on every pass before the write and succeeded
on the pass after it.  The check fails on the buffer the server's own `strcpy`
left; a write of the greeting to offset 0 of a 1024-byte buffer of any
contents makes its first 26 bytes the greeting and the check true; and the
check is true exactly when the first 6 bytes are "Client". -/
theorem greeting_reaches_server {σ τ : Type} (eC : Env σ) (eS : Env τ)
    (argvC argvS : List String) (tC tS : List Event) (cC cS : Context) (k : Nat)
    (hC : init_ctx eC 1024 = (tC, Res.ok cC)) (hS : init_ctx eS 1024 = (tS, Res.ok cS))
    (haC : argvC.length = 2) (hcl : argvC.getD 1 "" ≠ "server")
    (haS : argvS.length = 2) (hsv : argvS.getD 1 "" = "server")
    (hmC : (modify_qp eC.ibv_modify_qp eC.hw cC (local_info_of eC cC)
              (scanf_remote eC.stdin eC.remote_info0).2).result = Res.ok ())
    (hmS : (modify_qp eS.ibv_modify_qp eS.hw cS (local_info_of eS cS)
              (scanf_remote eS.stdin eS.remote_info0).2).result = Res.ok ())
    (hwf : (local_info_of eS cS).wf)
    (hex : eC.stdin = typed_reply (print_local_info (local_info_of eS cS)))
    (hk : k < 10)
    (hland : ∀ i mem, eS.landed i mem =
      if i = k then
        (posted (main eC argvC).trace).foldl
          (fun m wr => deliver eC.buf (main eC argvC).mem wr eS.buf m) mem
      else mem) :
    (posted (main eC argvC).trace).map (fun wr => (wr.sg_list, wr.remote_addr))
      = [([{ addr := eC.buf, length := 26, lkey := eC.mr_lkey }], eS.buf)] ∧
    (main eC argvC).mem.length = 1024 ∧
    sge_bytes eC.buf (main eC argvC).mem { addr := eC.buf, length := 26, lkey := eC.mr_lkey }
      = bytes "Client: Hello RDMA World!" ++ [0] ∧
    (main eS argvS).mem.length = 1024 ∧
    (main eS argvS).mem.take 26 = bytes "Client: Hello RDMA World!" ++ [0] ∧
    sleeps (main eS argvS).trace = k + 1 ∧
    Event.printf "\n🎉 SUCCESS! Data changed detected!\n" [] ∈ (main eS argvS).trace ∧
    server_check (server_mem cS) = false ∧
    (∀ srv : List Nat, srv.length = 1024 →
      (rdma_write (bytes "Client: Hello RDMA World!" ++ [0]) 0 srv).take 26
        = bytes "Client: Hello RDMA World!" ++ [0] ∧
      (rdma_write (bytes "Client: Hello RDMA World!" ++ [0]) 0 srv).length = 1024 ∧
      server_check (rdma_write (bytes "Client: Hello RDMA World!" ++ [0]) 0 srv) = true) ∧
    (∀ mem : List Nat, server_check mem = true ↔ mem.take 6 = bytes "Client") := by
  have hcC := (init_ctx_ok eC 1024 tC cC hC).1
  have hcS := (init_ctx_ok eS 1024 tS cS hS).1
  have hbC : cC.buf = eC.buf := by rw [hcC]
  have hbS : cS.buf = eS.buf := by rw [hcS]
  have hlC : cC.mem.length = 1024 := by rw [hcC]; exact List.length_replicate _ _
  have hlS : cS.mem.length = 1024 := by rw [hcS]; exact List.length_replicate _ _
  have hlen : (bytes "Client: Hello RDMA World!" ++ [0]).length = 26 := by decide
  have hscan : (scanf_remote eC.stdin eC.remote_info0).2.addr = eS.buf := by
    rw [hex, scanf_typed_reply _ _ hwf]
    exact hbS
  have hrunC := main_client_run eC argvC tC cC haC hC hmC hcl
  have hrunS := main_server_run eS argvS tS cS haS hS hmS hsv
  have hp0 : posted tC = [] := by
    have := init_ctx_posted eC 1024
    rw [hC] at this
    exact this
  have hs0 : sleeps tS = 0 := by
    have := init_ctx_sleeps eS 1024
    rw [hS] at this
    exact this
  have hpost : posted (main eC argvC).trace
      = [client_wr eC cC (scanf_remote eC.stdin eC.remote_info0).2] := by
    rw [hrunC]
    simp only [posted_append, hp0, exchange_posted, modify_qp_posted, client_posted]
    simp [posted]
  have hmemC : (main eC argvC).mem = client_mem cC := by rw [hrunC]
  have hsge : client_sge eC cC = { addr := eC.buf, length := 26, lkey := eC.mr_lkey } := by
    simp only [client_sge, client_mem, strlen_client_mem, hbC]
  have hpay : sge_bytes eC.buf (client_mem cC)
      { addr := eC.buf, length := 26, lkey := eC.mr_lkey }
      = bytes "Client: Hello RDMA World!" ++ [0] :=
    client_payload eC.buf cC.mem eC.mr_lkey
  have htake : ∀ srv : List Nat,
      (rdma_write (bytes "Client: Hello RDMA World!" ++ [0]) 0 srv).take 26
        = bytes "Client: Hello RDMA World!" ++ [0] := by
    intro srv
    simp only [rdma_write, List.take_zero, List.nil_append]
    exact List.take_left' hlen
  have hwlen : ∀ srv : List Nat, srv.length = 1024 →
      (rdma_write (bytes "Client: Hello RDMA World!" ++ [0]) 0 srv).length = 1024 := by
    intro srv hsrv
    simp only [rdma_write, List.take_zero, List.nil_append, List.length_append,
      List.length_drop, hlen, hsrv]
  have hchk : ∀ srv : List Nat,
      server_check (rdma_write (bytes "Client: Hello RDMA World!" ++ [0]) 0 srv) = true := by
    intro srv
    simp only [rdma_write, List.take_zero, List.nil_append]
    exact server_check_greeting _
  have hW : ∀ mem : List Nat,
      (posted (main eC argvC).trace).foldl
        (fun m wr => deliver eC.buf (main eC argvC).mem wr eS.buf m) mem
      = rdma_write (bytes "Client: Hello RDMA World!" ++ [0]) 0 mem := by
    intro mem
    rw [hpost, hmemC]
    simp only [List.foldl_cons, List.foldl_nil, deliver, client_wr, hsge, List.map_cons,
      List.map_nil, List.flatten_cons, List.flatten_nil, List.append_nil, hpay, hscan,
      Nat.sub_self]
  have hL : ∀ i mem, eS.landed i mem =
      if i = k then rdma_write (bytes "Client: Hello RDMA World!" ++ [0]) 0 mem else mem := by
    intro i mem
    rw [hland, hW]
  have hsml : (server_mem cS).length = 1024 := by
    have hb : (bytes "Server: I am waiting for data...").length = 32 := by decide
    simp only [server_mem, strcpy, List.length_append, List.length_drop, List.length_singleton,
      hb, hlS]
  obtain ⟨s1, s2, s3⟩ := server_loop_lands eS.landed cS.buf k
    (rdma_write (bytes "Client: Hello RDMA World!" ++ [0]) 0) hL (server_mem cS)
    (server_check_waiting cS.mem) (hchk _) 10 0 (Nat.zero_le _) (by omega)
  refine ⟨?_, ?_, ?_, ?_, ?_, ?_, ?_, server_check_waiting cS.mem,
    fun srv hsrv => ⟨htake srv, hwlen srv hsrv, hchk srv⟩, server_check_iff⟩
  · rw [hpost]
    simp only [List.map_cons, List.map_nil, client_wr, hsge, hscan]
  · rw [hmemC]
    have hb : (bytes "Client: Hello RDMA World!").length = 25 := by decide
    simp only [client_mem, strcpy, List.length_append, List.length_drop, List.length_singleton,
      hb, hlC]
  · rw [hmemC]
    exact hpay
  · rw [hrunS]
    simp only [s3]
    exact hwlen _ hsml
  · rw [hrunS]
    simp only [s3]
    exact htake _
  · rw [hrunS]
    simp only [sleeps_append, hs0, exchange_sleeps, modify_qp_sleeps, server, s1]
    simp [sleeps]
  · rw [hrunS]
    simp only [server, List.mem_append]
    exact Or.inr (Or.inr s2)

/-- Witness of C9: `env_client` and `env_server`, the write landing during the
third sleep. -/
theorem greeting_reaches_server_witness :
    sleeps (main env_server ["rdma_demo", "server"]).trace = 3 ∧
    (main env_server ["rdma_demo", "server"]).mem.take 26
      = bytes "Client: Hello RDMA World!" ++ [0] :=
  ⟨(greeting_reaches_server env_client env_server ["rdma_demo", "client"]
      ["rdma_demo", "server"] (init_ctx env_client 1024).1 (init_ctx env_server 1024).1
      ctx_ok ctx_server 2 rfl rfl (by decide) (by decide) (by decide) (by decide)
      (by decide) (by decide)
      ⟨by decide, by decide, by decide, by decide, by decide, by decide⟩
      rfl (by decide) (fun _ _ => rfl)).2.2.2.2.2.1,
   (greeting_reaches_server env_client env_server ["rdma_demo", "client"]
      ["rdma_demo", "server"] (init_ctx env_client 1024).1 (init_ctx env_server 1024).1
      ctx_ok ctx_server 2 rfl rfl (by decide) (by decide) (by decide) (by decide)
      (by decide) (by decide)
      ⟨by decide, by decide, by decide, by decide, by decide, by decide⟩
      rfl (by decide) (fun _ _ => rfl)).2.2.2.2.1⟩

/-- C10: when endpoint A runs `modify_qp` with B's descriptor and B runs it
with A's, and both return normally, each makes exactly one request for RTR and
one for RTS, and, counting an attribute as applied only when the mask of the
request names it: the destination queue-pair number and the destination GID
that A applies are B's own, the initial send sequence number A applies is the
initial receive sequence number B applies (0), both apply the same path MTU
(`IBV_MTU_1024`); and the same with A and B swapped. -/
theorem connection_parameters_match {σ τ : Type}
    (fA : σ → Nat → ibv_qp_attr → Nat → σ × Int) (hwA : σ)
    (fB : τ → Nat → ibv_qp_attr → Nat → τ × Int) (hwB : τ)
    (cA cB : Context) (a b : QPInfo)
    (hA : (modify_qp fA hwA cA a b).result = Res.ok ())
    (hB : (modify_qp fB hwB cB b a).result = Res.ok ()) :
    ∃ ra sa rb sb,
      requests_to IBV_QPS_RTR (modify_qp fA hwA cA a b).trace = [ra] ∧
      requests_to IBV_QPS_RTS (modify_qp fA hwA cA a b).trace = [sa] ∧
      requests_to IBV_QPS_RTR (modify_qp fB hwB cB b a).trace = [rb] ∧
      requests_to IBV_QPS_RTS (modify_qp fB hwB cB b a).trace = [sb] ∧
      applied_dest_qp_num ra = some b.qp_num ∧ applied_dgid ra = some b.gid ∧
      applied_sq_psn sa = applied_rq_psn rb ∧ applied_rq_psn rb = some 0 ∧
      applied_path_mtu ra = applied_path_mtu rb ∧ applied_path_mtu rb = some IBV_MTU_1024 ∧
      applied_dest_qp_num rb = some a.qp_num ∧ applied_dgid rb = some a.gid ∧
      applied_sq_psn sb = applied_rq_psn ra ∧ applied_rq_psn ra = some 0 := by
  obtain ⟨a1, a2, a3⟩ := (modify_qp_ok_iff fA hwA cA a b).mp hA
  obtain ⟨b1, b2, b3⟩ := (modify_qp_ok_iff fB hwB cB b a).mp hB
  rw [modify_qp_accept fA hwA cA a b a1 a2 a3, modify_qp_accept fB hwB cB b a b1 b2 b3]
  have m1 : flags_rtr &&& IBV_QP_DEST_QPN ≠ 0 := by decide
  have m2 : flags_rtr &&& IBV_QP_AV ≠ 0 := by decide
  have m3 : flags_rtr &&& IBV_QP_PATH_MTU ≠ 0 := by decide
  have m4 : flags_rtr &&& IBV_QP_RQ_PSN ≠ 0 := by decide
  have m5 : flags_rts &&& IBV_QP_SQ_PSN ≠ 0 := by decide
  refine ⟨(attr_rtr b, flags_rtr), (attr_rts, flags_rts), (attr_rtr a, flags_rtr),
    (attr_rts, flags_rts), ?_⟩
  simp [requests_to, applied_dest_qp_num, applied_dgid, applied_sq_psn, applied_rq_psn,
    applied_path_mtu, m1, m2, m3, m4, m5, attr_init, attr_rtr, attr_rts, IBV_QPS_INIT,
    IBV_QPS_RTR, IBV_QPS_RTS]

/-- Witness of C10: two endpoints with distinct descriptors, both queue pairs
willing. -/
theorem connection_parameters_match_witness :
    ∃ ra sa rb sb,
      requests_to IBV_QPS_RTR (modify_qp (qp_model_step (fun _ => true)) QpModel.fresh ctx_ok
        (local_info_of env_ok ctx_ok) (scanf_remote env_ok.stdin env_ok.remote_info0).2).trace
        = [ra] ∧
      requests_to IBV_QPS_RTS (modify_qp (qp_model_step (fun _ => true)) QpModel.fresh ctx_ok
        (local_info_of env_ok ctx_ok) (scanf_remote env_ok.stdin env_ok.remote_info0).2).trace
        = [sa] ∧
      requests_to IBV_QPS_RTR (modify_qp (qp_model_step (fun _ => true)) QpModel.fresh ctx_ok
        (scanf_remote env_ok.stdin env_ok.remote_info0).2 (local_info_of env_ok ctx_ok)).trace
        = [rb] ∧
      requests_to IBV_QPS_RTS (modify_qp (qp_model_step (fun _ => true)) QpModel.fresh ctx_ok
        (scanf_remote env_ok.stdin env_ok.remote_info0).2 (local_info_of env_ok ctx_ok)).trace
        = [sb] ∧
      applied_dest_qp_num ra = some (scanf_remote env_ok.stdin env_ok.remote_info0).2.qp_num ∧
      applied_dgid ra = some (scanf_remote env_ok.stdin env_ok.remote_info0).2.gid ∧
      applied_sq_psn sa = applied_rq_psn rb ∧ applied_rq_psn rb = some 0 ∧
      applied_path_mtu ra = applied_path_mtu rb ∧ applied_path_mtu rb = some IBV_MTU_1024 ∧
      applied_dest_qp_num rb = some (local_info_of env_ok ctx_ok).qp_num ∧
      applied_dgid rb = some (local_info_of env_ok ctx_ok).gid ∧
      applied_sq_psn sb = applied_rq_psn ra ∧ applied_rq_psn ra = some 0 :=
  connection_parameters_match (qp_model_step (fun _ => true)) QpModel.fresh
    (qp_model_step (fun _ => true)) QpModel.fresh ctx_ok ctx_ok
    (local_info_of env_ok ctx_ok) (scanf_remote env_ok.stdin env_ok.remote_info0).2
    (by decide) (by decide)

end RdmaDemo
